import Mathlib

set_option maxRecDepth 8000

/-!
Verification development for the conversational Jira issue-collection agent
(`src/agents/jira_agent.py` together with the data model in
`src/models/schemas.py`).

The Python code is shallowly embedded as executable Lean definitions.
Strings are modelled over their character lists; the ASCII fragment of the
Python string methods (`strip`, `lower`, `upper`, `isdigit`) is embedded,
which covers every string the agent's own code manipulates.
-/

/-! ## Python string helpers -/

/-- Characters treated as whitespace by Python `str.strip()` (the ASCII
range: space, `\t`, `\n`, `\r`, `\x0b`, `\x0c`, and the file/group/
record/unit separators `\x1c`–`\x1f`, all of which satisfy
`str.isspace`). -/
def pyWsChar (c : Char) : Bool :=
  c = ' ' || c = '\t' || c = '\n' || c = '\r' || c = '\x0b' || c = '\x0c' ||
    c = '\x1c' || c = '\x1d' || c = '\x1e' || c = '\x1f'

/-- `str.strip()` on a character list. -/
def pyStripL (l : List Char) : List Char :=
  ((l.dropWhile pyWsChar).reverse.dropWhile pyWsChar).reverse

/-- `str.strip()`. -/
def pyStrip (s : String) : String := ⟨pyStripL s.data⟩

/-- ASCII `str.lower()` on one character. -/
def lowerChar (c : Char) : Char :=
  if 'A' ≤ c ∧ c ≤ 'Z' then Char.ofNat (c.toNat + 32) else c

/-- ASCII `str.lower()`. -/
def pyLower (s : String) : String := ⟨s.data.map lowerChar⟩

/-- ASCII `str.upper()` on one character. -/
def upperChar (c : Char) : Char :=
  if 'a' ≤ c ∧ c ≤ 'z' then Char.ofNat (c.toNat - 32) else c

/-- ASCII `str.upper()`. -/
def pyUpper (s : String) : String := ⟨s.data.map upperChar⟩

/-- Decimal digit test (`[0-9]`, that is codes 48–57; the ASCII fragment
of `str.isdigit`). -/
def isDigitC (c : Char) : Bool := 48 ≤ c.toNat && c.toNat ≤ 57

/-- ASCII letter test (`[a-zA-Z]`, codes 97–122 and 65–90). -/
def isAlphaC (c : Char) : Bool :=
  (97 ≤ c.toNat && c.toNat ≤ 122) || (65 ≤ c.toNat && c.toNat ≤ 90)

/-- Numeric value of a digit character. -/
def digVal (c : Char) : Nat := c.toNat - '0'.toNat

/-- Value of a digit string (decimal), as computed by Python `int(...)`. -/
def digitsVal (l : List Char) : Nat := l.foldl (fun a c => 10 * a + digVal c) 0

/-- `str.isdigit()` for ASCII strings: nonempty and all decimal digits. -/
def pyIsDigit (s : String) : Bool := !s.data.isEmpty && s.data.all isDigitC

/-- `int(s)` for a digit string. -/
def strToNat (s : String) : Nat := digitsVal s.data

/-- `s.replace(" ", "").replace("-", "")`: delete all spaces and hyphens. -/
def removeSpaceHyphen (s : String) : String :=
  ⟨s.data.filter (fun c => !(c = ' ' || c = '-'))⟩

/-- `s.replace(" ", "-")`: each space becomes a hyphen. -/
def spaceToHyphen (s : String) : String :=
  ⟨s.data.map (fun c => if c = ' ' then '-' else c)⟩

/-- Python `str.split(sep)` for a one-character separator; `"".split(",")`
is `[""]`, so the result is always nonempty. -/
def splitOnChar (sep : Char) : List Char → List (List Char)
  | [] => [[]]
  | c :: rest =>
    let r := splitOnChar sep rest
    if c = sep then [] :: r
    else
      match r with
      | h :: t => (c :: h) :: t
      | [] => [[c]]

/-- Substring test (`kw in text` for Python strings). -/
def isSubstrOf (pat s : List Char) : Bool :=
  (List.range (s.length + 1)).any (fun i => pat.isPrefixOf (s.drop i))

/-! ## Field registry (`CHOICE_MAPS`, `FIELD_ORDER`) -/

/-- `CHOICE_MAPS`: menu choices for the three menu-style fields. -/
def CHOICE_MAPS : String → Option (List String)
  | "issue_type" => some ["Task", "Story", "Epic"]
  | "priority" => some ["Highest", "High", "Medium", "Low", "Lowest"]
  | "status" => some ["To Do", "In Progress", "In Review"]
  | _ => none

/-- `FIELD_ORDER`: field collection order for complete issue creation. -/
def FIELD_ORDER : List String :=
  ["issue_type", "priority", "status", "summary", "description",
   "assignee", "start_date", "due_date", "parent_key", "labels"]

/-! ## `interpret_choice` -/

/-- One iteration of the textual-match loop of `interpret_choice`:
the lowered input equals `opt.lower()` or `opt.lower()` with spaces and
hyphens removed. -/
def optTextMatch (t opt : String) : Bool :=
  t = pyLower opt || t = removeSpaceHyphen (pyLower opt)

/-- `interpret_choice(field, text)`: an in-range numeric 1-based index
into the menu returns early with that entry (Python's
`if 0 <= i < len(opts): return opts[i]`, with `i = int(t) - 1`);
otherwise — non-digit input or an out-of-range index such as `"0"` —
control falls through to the textual-match loop, whose first match (or
`None`) is the result. -/
def interpret_choice (field text : String) : Option String :=
  if pyIsDigit (pyLower (pyStrip text)) ∧
      1 ≤ strToNat (pyLower (pyStrip text)) ∧
      strToNat (pyLower (pyStrip text)) ≤ ((CHOICE_MAPS field).getD []).length then
    ((CHOICE_MAPS field).getD [])[strToNat (pyLower (pyStrip text)) - 1]?
  else
    ((CHOICE_MAPS field).getD []).find?
      (fun opt => optTextMatch (pyLower (pyStrip text)) opt)

/-! ## `validate_date` (CPython `strptime("%Y-%m-%d")` + `datetime`) -/

/-- Leap-year rule used by `datetime`. -/
def isLeap (y : Nat) : Bool := (y % 4 = 0 && y % 100 ≠ 0) || y % 400 = 0

/-- Days in a month, as enforced by the `datetime` constructor. -/
def daysInMonth (y m : Nat) : Nat :=
  if m = 2 then (if isLeap y then 29 else 28)
  else if m = 4 ∨ m = 6 ∨ m = 9 ∨ m = 11 then 30
  else 31

/-- The `datetime(y, m, d)` constructor's range checks
(`MINYEAR = 1`, `MAXYEAR = 9999`). -/
def datetimeOk (y m d : Nat) : Bool :=
  1 ≤ y && y ≤ 9999 && 1 ≤ m && m ≤ 12 && 1 ≤ d && d ≤ daysInMonth y m

/-- CPython `_strptime` matches `%Y` with regex `\d\d\d\d`: exactly four
digits. -/
def parseY4 : List Char → Option (Nat × List Char)
  | a :: b :: c :: d :: rest =>
    if isDigitC a ∧ isDigitC b ∧ isDigitC c ∧ isDigitC d then
      some (1000 * digVal a + 100 * digVal b + 10 * digVal c + digVal d, rest)
    else none
  | _ => none

/-- CPython `_strptime` matches `%m` with regex `1[0-2]|0[1-9]|[1-9]`.
The ordered alternation is encoded directly; a two-character alternative
can only succeed when the second character is a digit of the required
class, in which case the one-character fallback (which would need a `-`
next) necessarily fails, so ordered-greedy matching coincides with the
regex engine's backtracking search. -/
def parseMonth2 : List Char → Option (Nat × List Char)
  | c1 :: c2 :: rest =>
    if isDigitC c1 ∧ digVal c1 = 1 ∧ isDigitC c2 ∧ digVal c2 ≤ 2 then
      some (10 + digVal c2, rest)
    else if isDigitC c1 ∧ digVal c1 = 0 ∧ isDigitC c2 ∧ 1 ≤ digVal c2 then
      some (digVal c2, rest)
    else if isDigitC c1 ∧ 1 ≤ digVal c1 then
      some (digVal c1, c2 :: rest)
    else none
  | [c1] => if isDigitC c1 ∧ 1 ≤ digVal c1 then some (digVal c1, []) else none
  | [] => none

/-- CPython `_strptime` matches `%d` with regex
`3[0-1]|[1-2]\d|0[1-9]|[1-9]| [1-9]`, encoded as for `%m`; the final
alternative accepts a space-padded single digit (kept in CPython for
ANSI-C `%c` compatibility), whose value `int(...)` computes after
stripping the pad.  Its first character (a space) is disjoint from the
digit-led alternatives, so ordered-greedy matching again coincides with
the regex engine. -/
def parseDay2 : List Char → Option (Nat × List Char)
  | c1 :: c2 :: rest =>
    if isDigitC c1 ∧ digVal c1 = 3 ∧ isDigitC c2 ∧ digVal c2 ≤ 1 then
      some (30 + digVal c2, rest)
    else if isDigitC c1 ∧ (digVal c1 = 1 ∨ digVal c1 = 2) ∧ isDigitC c2 then
      some (10 * digVal c1 + digVal c2, rest)
    else if isDigitC c1 ∧ digVal c1 = 0 ∧ isDigitC c2 ∧ 1 ≤ digVal c2 then
      some (digVal c2, rest)
    else if isDigitC c1 ∧ 1 ≤ digVal c1 then
      some (digVal c1, c2 :: rest)
    else if c1 = ' ' ∧ isDigitC c2 ∧ 1 ≤ digVal c2 then
      some (digVal c2, rest)
    else none
  | [c1] => if isDigitC c1 ∧ 1 ≤ digVal c1 then some (digVal c1, []) else none
  | [] => none

/-- Consume one expected literal character (the `-` separators of the
format string). -/
def expectChar (c : Char) : List Char → Option (List Char)
  | x :: r => if x = c then some r else none
  | [] => none

/-- `datetime.strptime(t, "%Y-%m-%d")` succeeding with no unconverted
data (the full string must be consumed), returning the parsed
components. -/
def strptimeYmd (l : List Char) : Option (Nat × Nat × Nat) :=
  match parseY4 l with
  | none => none
  | some (y, r0) =>
    match expectChar '-' r0 with
    | none => none
    | some r1 =>
      match parseMonth2 r1 with
      | none => none
      | some (m, r2) =>
        match expectChar '-' r2 with
        | none => none
        | some r3 =>
          match parseDay2 r3 with
          | none => none
          | some (d, r4) => if r4 = [] then some (y, m, d) else none

/-- `datetime.strptime(l, "%Y-%m-%d")` succeeding, including the
`datetime` constructor's calendar check. -/
def strptimeDatetimeOk (l : List Char) : Bool :=
  match strptimeYmd l with
  | some (y, m, d) => datetimeOk y m d
  | none => false

/-- `validate_date(date_str)`: empty after strip is valid (optional field
skip); otherwise `datetime.strptime(date_str.strip(), "%Y-%m-%d")` must
succeed. -/
def validate_date (s : String) : Bool :=
  if pyStrip s = "" then true
  else strptimeDatetimeOk (pyStrip s).data

/-! ## `validate_email` -/

/-- Character class `[a-zA-Z0-9._%+-]` (the local part of the email
regex). -/
def emailLocalChar (c : Char) : Bool :=
  isAlphaC c || isDigitC c || c = '.' || c = '_' || c = '%' || c = '+' || c = '-'

/-- Character class `[a-zA-Z0-9.-]` (the domain part of the email
regex). -/
def emailDomChar (c : Char) : Bool :=
  isAlphaC c || isDigitC c || c = '.' || c = '-'

/-- `re.match(r'^[a-zA-Z0-9._%+-]+@[a-zA-Z0-9.-]+\.[a-zA-Z]{2,}$', l)`:
a nonempty local part (which cannot contain `@`) up to the first `@`, and
a domain that splits at some `.` into a nonempty `[a-zA-Z0-9.-]+` part
and a trailing `[a-zA-Z]{2,}`; the backtracking search over the greedy
`[a-zA-Z0-9.-]+` is an existential over the split position. -/
def emailRegexMatch (l : List Char) : Bool :=
  let loc := l.takeWhile (fun c => c ≠ '@')
  let rest := l.drop loc.length
  match rest with
  | '@' :: dom =>
    (!loc.isEmpty && loc.all emailLocalChar) &&
      (List.range dom.length).any (fun i =>
        dom[i]? = some '.' && !(dom.take i).isEmpty &&
          (dom.take i).all emailDomChar &&
          2 ≤ (dom.drop (i + 1)).length && (dom.drop (i + 1)).all isAlphaC)
  | _ => false

/-- `validate_email(email)`: empty after strip is valid, otherwise the
conventional `local@domain.tld` regex must match. -/
def validate_email (s : String) : Bool :=
  if pyStrip s = "" then true else emailRegexMatch (pyStrip s).data

/-! ## Issue-key format (`re.match(r'^[A-Z]+-\d+$', text)`) -/

/-- Uppercase letter test (`[A-Z]`, codes 65–90). -/
def isUpperC (c : Char) : Bool := 65 ≤ c.toNat && c.toNat ≤ 90

/-- `re.match(r'^[A-Z]+-\d+$', l)`: one or more uppercase letters, a
hyphen, one or more digits, to the end.  `[A-Z]` excludes `-`, so the
greedy run is the maximal one. -/
def issueKeyMatch (l : List Char) : Bool :=
  let a := l.takeWhile isUpperC
  match l.drop a.length with
  | '-' :: ds => !a.isEmpty && !ds.isEmpty && ds.all isDigitC
  | _ => false

/-! ## `generate_labels_from_description` -/

/-- The fixed keyword vocabulary (`tech_keywords`); a Python `set` used
only for membership, embedded as a list. -/
def tech_keywords : List String :=
  ["api", "database", "frontend", "backend", "mobile", "web", "server",
   "authentication", "oauth", "login", "payment", "gateway", "security",
   "performance", "bug", "error", "timeout", "crash", "fix",
   "critical", "urgent", "important", "high", "medium", "low",
   "ui", "ux", "design", "infrastructure", "devops", "testing",
   "deployment", "monitoring", "logging", "backup", "migration",
   "user", "customer", "admin", "report", "analytics", "dashboard",
   "checkout", "cart", "wishlist", "profile", "settings", "notification"]

/-- `compound_keywords`: canonical compound label and its trigger
substrings, in the source's (dict-insertion) order. -/
def compound_keywords : List (String × List String) :=
  [("two-factor", ["two", "factor", "authentication", "2fa"]),
   ("single-sign-on", ["single", "sign", "sso"]),
   ("real-time", ["real", "time", "realtime"]),
   ("third-party", ["third", "party", "external"]),
   ("end-to-end", ["end", "to", "end", "e2e"])]

/-- `\w` word-character test of the ASCII fragment of `re.findall`. -/
def isWordC (c : Char) : Bool := isAlphaC c || isDigitC c || c = '_'

/-- Accumulator loop for `wordRuns`; the first argument is the reversed
current run of word characters. -/
def wordRunsGo : List Char → List Char → List String
  | acc, [] => if acc.isEmpty then [] else [⟨acc.reverse⟩]
  | acc, c :: rest =>
    if isWordC c then wordRunsGo (c :: acc) rest
    else if acc.isEmpty then wordRunsGo [] rest
    else ⟨acc.reverse⟩ :: wordRunsGo [] rest

/-- `re.findall(r'\b\w+\b', l)` for ASCII text: the maximal runs of word
characters, in order. -/
def wordRuns (l : List Char) : List String := wordRunsGo [] l

/-- `generate_labels_from_description(description)`: first-seen keyword
matches over the word runs of the lowered text, then compound labels whose
trigger substrings occur in the lowered text, capped at 5. -/
def generate_labels_from_description (description : String) : List String :=
  if description = "" then []
  else
    (compound_keywords.foldl
        (fun acc lk =>
          if lk.2.any (fun kw => isSubstrOf kw.data (pyLower description).data) ∧
              lk.1 ∉ acc then
            acc ++ [lk.1]
          else acc)
        ((wordRuns (pyLower description).data).foldl
          (fun acc w => if w ∈ tech_keywords ∧ w ∉ acc then acc ++ [w] else acc)
          [])).take 5

/-! ## Data model (`src/models/schemas.py`) -/

/-- `Intent` enum. -/
inductive Intent
  | create_issue | update_issue | query_issue | search_issues | help | unknown
deriving DecidableEq, Repr

/-- `IssueType` enum. -/
inductive IssueType
  | Task | Story | Epic
deriving DecidableEq, Repr

/-- `Priority` enum. -/
inductive Priority
  | Lowest | Low | Medium | High | Highest
deriving DecidableEq, Repr

/-- `IssueStatus` enum. -/
inductive IssueStatus
  | ToDo | InProgress | InReview | Done
deriving DecidableEq, Repr

/-- `ExtractedIssueData`: the accumulating draft.  Unset `Optional` fields
are `none`; `labels` defaults to the empty list as in the pydantic
model. -/
structure ExtractedIssueData where
  issue_type : Option IssueType := none
  priority : Option Priority := none
  summary : Option String := none
  description : Option String := none
  assignee : Option String := none
  project_key : Option String := none
  labels : List String := []
  issue_key : Option String := none
  status : Option IssueStatus := none
  due_date : Option String := none
  start_date : Option String := none
  parent_key : Option String := none
deriving DecidableEq, Repr

/-- `AgentResponse`: the engine's per-turn output contract.  `confidence`
is a rational standing for the Python float (only the literals `0.0` and
`1.0` occur in the embedded code). -/
structure AgentResponse where
  intent : Intent
  confidence : Rat
  extracted_data : ExtractedIssueData
  missing_fields : List String := []
  next_question : Option String := none
  ready_for_jira : Bool := false
  response_message : String
  error : Option String := none
deriving DecidableEq, Repr

/-- `ConversationState`: one per user.  `draft` embeds the source's
`partial_issue_data` field (renamed only in the Lean rendering). -/
structure ConversationState where
  user_phone : String
  current_intent : Option Intent := none
  draft : ExtractedIssueData := {}
  conversation_history : List String := []
  awaiting_field : Option String := none
  last_activity : Option String := none
deriving DecidableEq, Repr

/-- String value of an `IssueType` (the str-enum's value, as rendered by
an f-string), with Python's `None` rendering for an unset field. -/
def showIssueType : Option IssueType → String
  | some .Task => "Task"
  | some .Story => "Story"
  | some .Epic => "Epic"
  | none => "None"

/-- `IssueType(value)` for the values produced by `CHOICE_MAPS`. -/
def issueTypeOfString : String → Option IssueType
  | "Task" => some .Task
  | "Story" => some .Story
  | "Epic" => some .Epic
  | _ => none

/-- `Priority(value)` for the values produced by `CHOICE_MAPS`. -/
def priorityOfString : String → Option Priority
  | "Highest" => some .Highest
  | "High" => some .High
  | "Medium" => some .Medium
  | "Low" => some .Low
  | "Lowest" => some .Lowest
  | _ => none

/-- `IssueStatus(value)` for the values produced by `CHOICE_MAPS`. -/
def issueStatusOfString : String → Option IssueStatus
  | "To Do" => some .ToDo
  | "In Progress" => some .InProgress
  | "In Review" => some .InReview
  | "Done" => some .Done
  | _ => none

/-- `setattr(partial, field, to_enum(field, choice))` for the menu
fields: `to_enum` dispatches on the field name and the enum constructor
accepts every value drawn from `CHOICE_MAPS`. -/
def setMenuField (d : ExtractedIssueData) (field choice : String) :
    ExtractedIssueData :=
  match field with
  | "issue_type" => { d with issue_type := issueTypeOfString choice }
  | "priority" => { d with priority := priorityOfString choice }
  | "status" => { d with status := issueStatusOfString choice }
  | _ => d

/-! ## Environment of the embedding

Two behaviours of the Python runtime are inputs of the model rather than
functions of the arguments: the iteration order of `list(set(...))`
(CPython enumerates a `set` of strings in hash order, which is
unspecified and varies with the per-process hash seed) and
`date.today()` (used only inside two prompt texts). -/

/-- External parameters of the embedding: `setEnum` models
`list(set(xs))`, `today` models `date.today().strftime('%Y-%m-%d')`. -/
structure PyEnv where
  setEnum : List String → List String
  today : String

/-- The contract every admissible `list(set(...))` enumeration satisfies:
the result lists each element of the input exactly once, in some order. -/
def SetEnumOK (e : List String → List String) : Prop :=
  ∀ xs : List String, (e xs).Nodup ∧ ∀ a, a ∈ e xs ↔ a ∈ xs

/-- First-occurrence deduplication: one admissible `list(set(...))`
order, used to instantiate witnesses. -/
def dedupFirst (xs : List String) : List String :=
  xs.foldl (fun a w => if w ∈ a then a else a ++ [w]) []

/-- A second admissible `list(set(...))` order (deduplicate after
reversing), used to exhibit order-dependence. -/
def dedupRev (xs : List String) : List String := dedupFirst xs.reverse

/-! ## Collection engine (`JiraAgent`) -/

/-- Python truthiness of an `Optional[str]`: set and nonempty. -/
def pyTruthyOptStr : Option String → Bool
  | some s => s ≠ ""
  | none => false

/-- `_get_field_prompt(state, field, error)`: the per-field prompt
response; never mutates the state. -/
def getFieldPrompt (env : PyEnv) (st : ConversationState) (field : String)
    (error : Option String) : AgentResponse :=
  let errorMsg := match error with
    | some e => "❌ " ++ e ++ "\n\n"
    | none => ""
  let message :=
    if field = "issue_type" then
      errorMsg ++ "🏷️ **Select Work Type:**\n1. Task\n2. Story\n3. Epic\n\nEnter number or name:"
    else if field = "priority" then
      errorMsg ++ "⚡ **Select Priority:**\n1. Highest\n2. High\n3. Medium\n4. Low\n5. Lowest\n\nEnter number or name:"
    else if field = "status" then
      errorMsg ++ "🔄 **Select Status:**\n1. To Do\n2. In Progress\n3. In Review\n\nEnter number or name:"
    else if field = "summary" then
      errorMsg ++ "📝 **Enter Issue Title/Summary:**\nProvide a brief, clear title for this issue:"
    else if field = "description" then
      errorMsg ++ "📋 **Enter Description:**\nProvide detailed information about this issue (or type 'skip'):"
    else if field = "assignee" then
      errorMsg ++ "👤 **Enter Assignee:**\nEnter email address to assign this issue (or type 'skip'):"
    else if field = "start_date" then
      errorMsg ++ "📅 **Enter Start Date:**\nFormat: YYYY-MM-DD (e.g., " ++ env.today ++ ") or type 'skip':"
    else if field = "due_date" then
      errorMsg ++ "⏰ **Enter Due Date:**\nFormat: YYYY-MM-DD (e.g., " ++ env.today ++ ") or type 'skip':"
    else if field = "parent_key" then
      errorMsg ++ "🔗 **Enter Parent Issue:**\nLink to parent issue (e.g., TJ-123) or type 'skip':"
    else if field = "labels" then
      if st.draft.labels ≠ [] then
        errorMsg ++ "🏷️ **Review Labels:**\nAuto-generated labels: **" ++
          String.intercalate ", " st.draft.labels ++
          "**\n\nAdd more labels (comma-separated), type 'clear' to remove all, or 'skip' to keep current:"
      else
        errorMsg ++ "🏷️ **Enter Labels:**\nAdd labels (comma-separated) or type 'skip':"
    else
      errorMsg ++ "Please provide information for " ++ field ++ ":"
  { intent := .create_issue
    confidence := 1
    extracted_data := st.draft
    missing_fields := [field]
    next_question := some message
    ready_for_jira := false
    response_message := message }

/-- `_get_next_field_prompt(state)`: advance `awaiting_field` to the next
entry of `FIELD_ORDER`, or clear it and declare readiness when the
registry is exhausted (or the current field is not in it). -/
def getNextFieldPrompt (env : PyEnv) (st : ConversationState) :
    ConversationState × AgentResponse :=
  let ready : ConversationState × AgentResponse :=
    let st' := { st with awaiting_field := none }
    (st',
     { intent := .create_issue
       confidence := 1
       extracted_data := st'.draft
       ready_for_jira := true
       response_message :=
         "Perfect! I have all the information needed. Creating your " ++
           showIssueType st'.draft.issue_type ++ " issue now..." })
  match st.awaiting_field with
  | some cur =>
    if cur ∈ FIELD_ORDER then
      let i := FIELD_ORDER.indexOf cur
      if i + 1 < FIELD_ORDER.length then
        let nf := FIELD_ORDER.getD (i + 1) ""
        let st' := { st with awaiting_field := some nf }
        (st', getFieldPrompt env st' nf none)
      else ready
    else ready
  | none => ready

/-- The skip tokens accepted by the free-text optional fields:
`user_input.lower() in ["skip", "none", ""]`. -/
def isSkipInput (u : String) : Bool :=
  pyLower u = "skip" || pyLower u = "none" || pyLower u = ""

/-- The manual-labels comprehension of the `labels` branch:
`[l.strip().lower().replace(" ", "-") for l in user_input.split(",") if l.strip()]`. -/
def manualLabelsOf (u : String) : List String :=
  (((splitOnChar ',' u.data).map (fun l => pyStrip ⟨l⟩)).filter
      (fun l => l ≠ "")).map (fun l => spaceToHyphen (pyLower l))

/-- `_handle_field_input(state, message, field)`: interpret the raw reply
for the awaited field; `none` models the trailing `return None` for an
unrecognized field name.  State mutation is returned explicitly. -/
def handleFieldInput (env : PyEnv) (st : ConversationState)
    (message field : String) : Option (ConversationState × AgentResponse) :=
  if (CHOICE_MAPS field).isSome then
    match interpret_choice field (pyStrip message) with
    | some choice =>
      if choice ≠ "" then
        getNextFieldPrompt env
          { st with draft := setMenuField st.draft field choice }
      else some (st, getFieldPrompt env st field (some "Invalid choice. Please try again."))
    | none => some (st, getFieldPrompt env st field (some "Invalid choice. Please try again."))
  else if field = "summary" then
    if pyStrip message ≠ "" then
      if 255 < (pyStrip message).length then
        some (st, getFieldPrompt env st field (some
          ("Summary too long (" ++ toString (pyStrip message).length ++
            " characters). Please keep it under 255 characters and provide a brief title.")))
      else
        getNextFieldPrompt env
          { st with draft := { st.draft with summary := some (pyStrip message) } }
    else some (st, getFieldPrompt env st field (some "Summary cannot be empty. Please enter a title."))
  else if field = "description" then
    if isSkipInput (pyStrip message) then
      getNextFieldPrompt env
        { st with draft := { st.draft with description := none } }
    else
      getNextFieldPrompt env
        { st with draft :=
            if generate_labels_from_description (pyStrip message) ≠ [] then
              { st.draft with
                description := some (pyStrip message)
                labels := generate_labels_from_description (pyStrip message) }
            else { st.draft with description := some (pyStrip message) } }
  else if field = "assignee" then
    if isSkipInput (pyStrip message) then
      getNextFieldPrompt env
        { st with draft := { st.draft with assignee := none } }
    else if validate_email (pyStrip message) then
      getNextFieldPrompt env
        { st with draft := { st.draft with assignee := some (pyStrip message) } }
    else
      some (st, getFieldPrompt env st field (some
        "Invalid email format. Please enter a valid email or 'skip'."))
  else if field = "start_date" ∨ field = "due_date" then
    if isSkipInput (pyStrip message) then
      getNextFieldPrompt env
        { st with draft :=
            if field = "start_date" then { st.draft with start_date := none }
            else { st.draft with due_date := none } }
    else if validate_date (pyStrip message) then
      getNextFieldPrompt env
        { st with draft :=
            if field = "start_date" then
              { st.draft with start_date := some (pyStrip message) }
            else { st.draft with due_date := some (pyStrip message) } }
    else
      some (st, getFieldPrompt env st field (some
        "Invalid date format. Please use YYYY-MM-DD or 'skip'."))
  else if field = "parent_key" then
    if isSkipInput (pyStrip message) then
      getNextFieldPrompt env
        { st with draft := { st.draft with parent_key := none } }
    else if issueKeyMatch (pyUpper (pyStrip message)).data then
      getNextFieldPrompt env
        { st with draft :=
            { st.draft with parent_key := some (pyUpper (pyStrip message)) } }
    else
      some (st, getFieldPrompt env st field (some
        "Invalid issue key format. Use format like TJ-123 or 'skip'."))
  else if field = "labels" then
    if isSkipInput (pyStrip message) then
      getNextFieldPrompt env st
    else if pyLower (pyStrip message) = "clear" then
      getNextFieldPrompt env
        { st with draft := { st.draft with labels := [] } }
    else
      getNextFieldPrompt env
        { st with draft :=
            { st.draft with
              labels := env.setEnum (st.draft.labels ++ manualLabelsOf (pyStrip message)) } }
  else none

/-- `_start_interactive_collection(state)`: set `awaiting_field` to
`FIELD_ORDER[0]` and prompt for it. -/
def startInteractiveCollection (env : PyEnv) (st : ConversationState) :
    ConversationState × AgentResponse :=
  let st' := { st with awaiting_field := some (FIELD_ORDER.headD "") }
  (st', getFieldPrompt env st' (FIELD_ORDER.headD "") none)

/-- `if new_value is not None: setattr(...)` for an `Optional` field of
the draft. -/
def overwriteOpt {α : Type} (old new : Option α) : Option α :=
  match new with
  | some v => some v
  | none => old

/-- `_merge_issue_data(existing, new)`: field-wise overwrite-if-present;
`labels` (always a list in `model_dump`, and `[] is not None`) is instead
the `list(set(existing + new))` union. -/
def mergeIssueData (env : PyEnv) (existing new : ExtractedIssueData) :
    ExtractedIssueData :=
  { issue_type := overwriteOpt existing.issue_type new.issue_type
    priority := overwriteOpt existing.priority new.priority
    summary := overwriteOpt existing.summary new.summary
    description := overwriteOpt existing.description new.description
    assignee := overwriteOpt existing.assignee new.assignee
    project_key := overwriteOpt existing.project_key new.project_key
    labels := env.setEnum (existing.labels ++ new.labels)
    issue_key := overwriteOpt existing.issue_key new.issue_key
    status := overwriteOpt existing.status new.status
    due_date := overwriteOpt existing.due_date new.due_date
    start_date := overwriteOpt existing.start_date new.start_date
    parent_key := overwriteOpt existing.parent_key new.parent_key }

/-- Outcome of the Intent Extractor call as classified by
`_extract_intent_and_data`: the `llm.invoke` + code-fence stripping +
`json.loads` + pydantic-validation pipeline either raises
(`failure`, the broad `except` branch, which also covers pydantic
validation errors), hits `json.JSONDecodeError` (`unparsable`), or
yields a validated `AgentResponse` (`parsed`). -/
inductive ExtractorResult
  | failure (err : String)
  | unparsable (err : String)
  | parsed (resp : AgentResponse)

/-- The merge step at the end of `_extract_intent_and_data`: when the
stored intent is set and equals the response's intent, merge the stored
draft into the extracted data. -/
def mergeWithState (env : PyEnv) (st : ConversationState)
    (resp : AgentResponse) : AgentResponse :=
  match st.current_intent with
  | some ci =>
    if ci = resp.intent then
      { resp with extracted_data := mergeIssueData env st.draft resp.extracted_data }
    else resp
  | none => resp

/-- `_extract_intent_and_data(message, state)` as a function of the
extractor outcome. -/
def extractIntentAndData (env : PyEnv) (st : ConversationState)
    (r : ExtractorResult) : AgentResponse :=
  match r with
  | .failure err =>
    { intent := .unknown
      confidence := 0
      extracted_data := {}
      response_message := "I'm having trouble understanding that request. Try 'create an issue' or 'what's the status of TJ-123?'"
      error := some ("LLM error: " ++ err) }
  | .unparsable err =>
    mergeWithState env st
      { intent := .unknown
        confidence := 0
        extracted_data := {}
        missing_fields := []
        next_question := none
        ready_for_jira := false
        response_message := "I understand you want to work with Jira, but I need a clearer request. Try saying 'create an issue' or 'what's the status of TJ-123?'"
        error := some ("JSON parsing error: " ++ err) }
  | .parsed resp => mergeWithState env st resp

/-- `_update_conversation_state(state, response)`. -/
def updateConversationState (st : ConversationState) (resp : AgentResponse) :
    ConversationState :=
  let st1 :=
    if resp.intent ≠ Intent.unknown then
      { st with current_intent := some resp.intent, draft := resp.extracted_data }
    else st
  match resp.missing_fields with
  | f :: _ => { st1 with awaiting_field := some f }
  | [] => if !resp.ready_for_jira then st1 else { st1 with awaiting_field := none }

/-- The interactive-collection early return of `process_message`
(`if awaiting: response = self._handle_field_input(...)`). -/
def earlyCollection (env : PyEnv) (st : ConversationState) (message : String) :
    Option (ConversationState × AgentResponse) :=
  match st.awaiting_field with
  | some awaiting =>
    if awaiting ≠ "" then handleFieldInput env st message awaiting else none
  | none => none

/-- The body of `process_message` (the `try` block): the early
interactive-collection return with its history appends, or the
extraction path with collection start for an unready create intent and
the state update. -/
def processMessage (env : PyEnv) (st : ConversationState) (message : String)
    (r : ExtractorResult) : ConversationState × AgentResponse :=
  match earlyCollection env st message with
  | some (st', resp) =>
    ({ st' with conversation_history :=
        st'.conversation_history ++
          ["User: " ++ message, "Agent: " ++ resp.response_message] },
     resp)
  | none =>
    let st1 := { st with conversation_history :=
      st.conversation_history ++ ["User: " ++ message] }
    let resp1 := extractIntentAndData env st1 r
    let step :=
      if resp1.intent = Intent.create_issue ∧ !resp1.ready_for_jira then
        startInteractiveCollection env st1
      else (st1, resp1)
    let st3 := updateConversationState step.1 step.2
    ({ st3 with conversation_history :=
        st3.conversation_history ++ ["Agent: " ++ step.2.response_message] },
     step.2)

/-- The `except` clause of `process_message`: an unexpected internal
fault is converted into an unknown-intent response carrying the error
text. -/
def turnErrorResponse (e : String) : AgentResponse :=
  { intent := .unknown
    confidence := 0
    extracted_data := {}
    response_message := "Sorry, I encountered an error. Please try again."
    error := some e }

/-- `process_message` with its turn-boundary exception handler.  The
embedded body is a total function, so the possibility of an unexpected
internal fault is an explicit oracle input: `fault = some e` means some
operation inside the turn raised `e`. -/
def processMessageCaught (env : PyEnv) (st : ConversationState)
    (message : String) (r : ExtractorResult) (fault : Option String) :
    AgentResponse :=
  match fault with
  | some e => turnErrorResponse e
  | none => (processMessage env st message r).2

/-- Python truthiness of the draft fields checked by
`process_direct_issue_creation` (`not issue_data.summary` is true for
both `None` and `""`). -/
def pyFalsyStrOpt : Option String → Bool
  | some s => s = ""
  | none => true

/-- The first (shadowed) definition of `process_direct_issue_creation`
in the class body, whose project-key default is `"TJ"`. -/
def process_direct_issue_creation_shadowed (issue_data : ExtractedIssueData) :
    AgentResponse :=
  let missing :=
    (if issue_data.issue_type = none then ["issue_type"] else []) ++
    (if issue_data.priority = none then ["priority"] else []) ++
    (if pyFalsyStrOpt issue_data.summary then ["summary"] else []) ++
    (if pyFalsyStrOpt issue_data.description then ["description"] else [])
  if missing ≠ [] then
    { intent := .create_issue
      confidence := 1
      extracted_data := issue_data
      missing_fields := missing
      ready_for_jira := false
      response_message := "Missing required fields: " ++ String.intercalate ", " missing
      error := some ("Required fields missing: " ++ String.intercalate ", " missing) }
  else
    let d1 :=
      if issue_data.labels = [] ∧ ¬pyFalsyStrOpt issue_data.description then
        { issue_data with labels :=
            generate_labels_from_description (issue_data.description.getD "") }
      else issue_data
    let d2 :=
      if pyFalsyStrOpt d1.project_key then { d1 with project_key := some "TJ" } else d1
    { intent := .create_issue
      confidence := 1
      extracted_data := d2
      missing_fields := []
      ready_for_jira := true
      response_message := "Issue data validated and ready for creation" }

/-- `process_direct_issue_creation(issue_data)`: the second, effective
definition (Python class bodies bind the last definition of a name), whose
project-key default is `"MFLP"`. -/
def process_direct_issue_creation (issue_data : ExtractedIssueData) :
    AgentResponse :=
  let missing :=
    (if issue_data.issue_type = none then ["issue_type"] else []) ++
    (if issue_data.priority = none then ["priority"] else []) ++
    (if pyFalsyStrOpt issue_data.summary then ["summary"] else []) ++
    (if pyFalsyStrOpt issue_data.description then ["description"] else [])
  if missing ≠ [] then
    { intent := .create_issue
      confidence := 1
      extracted_data := issue_data
      missing_fields := missing
      ready_for_jira := false
      response_message := "Missing required fields: " ++ String.intercalate ", " missing
      error := some ("Required fields missing: " ++ String.intercalate ", " missing) }
  else
    let d1 :=
      if issue_data.labels = [] ∧ ¬pyFalsyStrOpt issue_data.description then
        { issue_data with labels :=
            generate_labels_from_description (issue_data.description.getD "") }
      else issue_data
    let d2 :=
      if pyFalsyStrOpt d1.project_key then { d1 with project_key := some "MFLP" } else d1
    { intent := .create_issue
      confidence := 1
      extracted_data := d2
      missing_fields := []
      ready_for_jira := true
      response_message := "Issue data validated and ready for creation" }

/-! ## Spec-side comparison definitions

These definitions follow the spec's words (not the source) and exist only
to be compared with the embedded code. -/

/-- Whether a draft field's value is still unset, per field name (the
spec's notion of a collection "gap"; for `labels` the empty list is
unset). -/
def draftFieldUnset (d : ExtractedIssueData) : String → Bool
  | "issue_type" => d.issue_type = none
  | "priority" => d.priority = none
  | "status" => d.status = none
  | "summary" => d.summary = none
  | "description" => d.description = none
  | "assignee" => d.assignee = none
  | "start_date" => d.start_date = none
  | "due_date" => d.due_date = none
  | "parent_key" => d.parent_key = none
  | "labels" => d.labels = []
  | _ => true

/-- The first field, in registry order, whose value is still unset in the
draft — the spec's claimed starting point of guided collection. -/
def specFirstGapField (d : ExtractedIssueData) : Option String :=
  FIELD_ORDER.find? (draftFieldUnset d)

/-- Case-, space-, and hyphen-insensitive normal form of a string (the
spec's notion of a textual variant of a menu choice). -/
def choiceNormalize (s : String) : String :=
  removeSpaceHyphen (pyLower (pyStrip s))

/-- The spec's "case/space/hyphen-insensitive textual variant" relation:
input and declared choice agree after normalizing both. -/
def isChoiceVariantOf (input opt : String) : Bool :=
  choiceNormalize input = choiceNormalize opt

/-- The spec's "exact `YYYY-MM-DD` calendar date": exactly ten characters,
four digits, hyphen, two digits, hyphen, two digits, naming a real
calendar date. -/
def exactYYYYMMDD (s : String) : Bool :=
  match s.data with
  | [y1, y2, y3, y4, h1, m1, m2, h2, d1, d2] =>
    isDigitC y1 && isDigitC y2 && isDigitC y3 && isDigitC y4 &&
      h1 = '-' && isDigitC m1 && isDigitC m2 && h2 = '-' &&
      isDigitC d1 && isDigitC d2 &&
      datetimeOk (digitsVal [y1, y2, y3, y4]) (digitsVal [m1, m2])
        (digitsVal [d1, d2])
  | _ => false

/-- The flexible date shape `validate_date` actually accepts: a
four-digit year, a one-or-two-digit month, and a day that is either one
or two digits or a space-padded single nonzero digit (the `%d` regex's
`\x20[1-9]` alternative), separated by single hyphens, naming a real
calendar date in years 1–9999. -/
def FlexDate (l : List Char) : Prop :=
  ∃ (yc mc dc : List Char) (d : Nat),
    l = yc ++ '-' :: (mc ++ '-' :: dc) ∧
    yc.length = 4 ∧ yc.all isDigitC = true ∧
    1 ≤ mc.length ∧ mc.length ≤ 2 ∧ mc.all isDigitC = true ∧
    ((1 ≤ dc.length ∧ dc.length ≤ 2 ∧ dc.all isDigitC = true ∧
        d = digitsVal dc) ∨
      (∃ c : Char, dc = [' ', c] ∧ isDigitC c = true ∧ 1 ≤ digVal c ∧
        d = digVal c)) ∧
    datetimeOk (digitsVal yc) (digitsVal mc) d = true

/-- The inputs rejected by the validation branches of
`_handle_field_input` (an invalid menu choice; an empty or over-255
character summary; a malformed non-skip email, date, or issue key). -/
def fieldInputInvalid (field msg : String) : Bool :=
  if (CHOICE_MAPS field).isSome then (interpret_choice field (pyStrip msg)).isNone
  else if field = "summary" then pyStrip msg = "" || 255 < (pyStrip msg).length
  else if field = "assignee" then
    !isSkipInput (pyStrip msg) && !validate_email (pyStrip msg)
  else if field = "start_date" ∨ field = "due_date" then
    !isSkipInput (pyStrip msg) && !validate_date (pyStrip msg)
  else if field = "parent_key" then
    !isSkipInput (pyStrip msg) && !issueKeyMatch (pyUpper (pyStrip msg)).data
  else false

/-- The human-readable error text each validation branch re-prompts
with. -/
def fieldErrorMsg (field msg : String) : String :=
  if (CHOICE_MAPS field).isSome then "Invalid choice. Please try again."
  else if field = "summary" then
    if pyStrip msg = "" then "Summary cannot be empty. Please enter a title."
    else
      "Summary too long (" ++ toString (pyStrip msg).length ++
        " characters). Please keep it under 255 characters and provide a brief title."
  else if field = "assignee" then
    "Invalid email format. Please enter a valid email or 'skip'."
  else if field = "start_date" ∨ field = "due_date" then
    "Invalid date format. Please use YYYY-MM-DD or 'skip'."
  else "Invalid issue key format. Use format like TJ-123 or 'skip'."

/-! ## Concrete fixtures for witnesses and counterexamples -/

/-- A concrete environment: first-occurrence `list(set(...))` order. -/
def env0 : PyEnv := { setEnum := dedupFirst, today := "2026-10-12" }

/-- A concrete environment with a different admissible
`list(set(...))` order. -/
def envR : PyEnv := { setEnum := dedupRev, today := "2026-10-12" }

/-- A guided-collection state at the last field (`labels`) whose
description was skipped earlier in the interview. -/
def stSkippedDescription : ConversationState :=
  { user_phone := "u"
    current_intent := some .create_issue
    draft := { issue_type := some .Task, priority := some .High,
               summary := some "Fix crash", description := none,
               labels := ["api"] }
    awaiting_field := some "labels" }

/-- A state whose draft already has `issue_type` filled by extraction. -/
def stTypeFilled : ConversationState :=
  { user_phone := "u", draft := { issue_type := some .Task } }

/-- A state awaiting `description` with previously collected labels. -/
def stLegacyLabels : ConversationState :=
  { user_phone := "u"
    draft := { labels := ["legacy-tag"] }
    awaiting_field := some "description" }

/-- A state awaiting `labels` with two previously collected labels. -/
def stTwoLabels : ConversationState :=
  { user_phone := "u"
    draft := { labels := ["b-lab", "a-lab"] }
    awaiting_field := some "labels" }

/-- A state awaiting `assignee` with an empty draft. -/
def stAwaitAssignee : ConversationState :=
  { user_phone := "u", awaiting_field := some "assignee" }

/-- A state with no pending field and no intent. -/
def stIdle : ConversationState := { user_phone := "u" }

/-- A fully-specified direct-path draft with no project key. -/
def directDraft : ExtractedIssueData :=
  { issue_type := some .Task, priority := some .High, summary := some "S",
    description := some "API timeout" }

/-- Fallback pair used only as the `Option.getD` default when naming the
result of a `handleFieldInput` call that is known to succeed. -/
def fallbackPair : ConversationState × AgentResponse :=
  (stIdle, turnErrorResponse "")

/-- The engine's result for answering `skip` at the final `labels` prompt
of `stSkippedDescription`. -/
def skipLabelsPair : ConversationState × AgentResponse :=
  (handleFieldInput env0 stSkippedDescription "skip" "labels").getD fallbackPair

/-- The engine's result for answering a keyword-bearing description at
the `description` prompt of `stLegacyLabels`. -/
def descAnswerPair : ConversationState × AgentResponse :=
  (handleFieldInput env0 stLegacyLabels "API timeout on login" "description").getD
    fallbackPair

/-- The engine's result for adding labels at the `labels` prompt of
`stTwoLabels`. -/
def addLabelsPair : ConversationState × AgentResponse :=
  (handleFieldInput env0 stTwoLabels "New Label, API" "labels").getD fallbackPair

/-! ## Helper lemmas -/

/-- The deduplicating fold preserves `Nodup`. -/
lemma dedupFold_nodup (xs : List String) :
    ∀ acc : List String, acc.Nodup →
      (xs.foldl (fun a w => if w ∈ a then a else a ++ [w]) acc).Nodup := by
  induction xs with
  | nil => intro acc h; simpa using h
  | cons x xs ih =>
    intro acc h
    simp only [List.foldl_cons]
    by_cases hx : x ∈ acc
    · rw [if_pos hx]; exact ih acc h
    · rw [if_neg hx]
      refine ih _ ?_
      simp [List.nodup_append, h, hx]

/-- Membership after the deduplicating fold. -/
lemma dedupFold_mem (xs : List String) :
    ∀ (acc : List String) (a : String),
      a ∈ xs.foldl (fun a w => if w ∈ a then a else a ++ [w]) acc ↔
        a ∈ acc ∨ a ∈ xs := by
  induction xs with
  | nil => intro acc a; simp
  | cons x xs ih =>
    intro acc a
    simp only [List.foldl_cons]
    by_cases hx : x ∈ acc
    · rw [if_pos hx, ih]
      simp only [List.mem_cons]
      constructor
      · rintro (h | h)
        · exact Or.inl h
        · exact Or.inr (Or.inr h)
      · rintro (h | h | h)
        · exact Or.inl h
        · exact Or.inl (h ▸ hx)
        · exact Or.inr h
    · rw [if_neg hx, ih]
      simp only [List.mem_append, List.mem_singleton, List.mem_cons]
      tauto

/-- `dedupFirst` is an admissible `list(set(...))` enumeration. -/
lemma dedupFirst_lawful : SetEnumOK dedupFirst := by
  intro xs
  constructor
  · exact dedupFold_nodup xs [] (by simp)
  · intro a
    rw [dedupFirst, dedupFold_mem]
    simp

/-- `dedupRev` is an admissible `list(set(...))` enumeration. -/
lemma dedupRev_lawful : SetEnumOK dedupRev := by
  intro xs
  constructor
  · exact dedupFold_nodup xs.reverse [] (by simp)
  · intro a
    rw [dedupRev, dedupFirst, dedupFold_mem]
    simp

/-- `_get_field_prompt` never claims readiness. -/
lemma getFieldPrompt_not_ready (env : PyEnv) (st : ConversationState)
    (field : String) (e : Option String) :
    (getFieldPrompt env st field e).ready_for_jira = false := rfl

/-- `_get_field_prompt` asks for exactly the given field. -/
lemma getFieldPrompt_missing (env : PyEnv) (st : ConversationState)
    (field : String) (e : Option String) :
    (getFieldPrompt env st field e).missing_fields = [field] := rfl

/-- `_get_next_field_prompt` does not touch the draft. -/
lemma getNextFieldPrompt_draft (env : PyEnv) (st : ConversationState) :
    (getNextFieldPrompt env st).1.draft = st.draft := by
  unfold getNextFieldPrompt
  split
  · dsimp only
    split
    · split
      · rfl
      · rfl
    · rfl
  · rfl

/-- A ready `_get_next_field_prompt` response has no missing fields and
no next question. -/
lemma getNextFieldPrompt_ready_inv (env : PyEnv) (st : ConversationState) :
    (getNextFieldPrompt env st).2.ready_for_jira = true →
      (getNextFieldPrompt env st).2.missing_fields = [] ∧
        (getNextFieldPrompt env st).2.next_question = none := by
  unfold getNextFieldPrompt
  split
  · dsimp only
    split
    · split
      · intro h
        exact absurd h (by simp [getFieldPrompt_not_ready])
      · intro _
        exact ⟨rfl, rfl⟩
    · intro _
      exact ⟨rfl, rfl⟩
  · intro _
    exact ⟨rfl, rfl⟩

/-- Every successful `_handle_field_input` result is either a
`_get_next_field_prompt` result or a re-prompt, which is never ready. -/
lemma handleFieldInput_shape (env : PyEnv) (st : ConversationState)
    (msg field : String) (p : ConversationState × AgentResponse)
    (h : handleFieldInput env st msg field = some p) :
    (∃ σ : ConversationState, p = getNextFieldPrompt env σ) ∨
      p.2.ready_for_jira = false := by
  unfold handleFieldInput at h
  by_cases c1 : (CHOICE_MAPS field).isSome = true
  · rw [if_pos c1] at h
    rcases hic : interpret_choice field (pyStrip msg) with _ | choice
    · rw [hic] at h
      right; cases Option.some.inj h; rfl
    · rw [hic] at h
      dsimp only at h
      by_cases c2 : choice ≠ ""
      · rw [if_pos c2] at h
        left; exact ⟨_, (Option.some.inj h).symm⟩
      · rw [if_neg c2] at h
        right; cases Option.some.inj h; rfl
  · rw [if_neg c1] at h
    by_cases c3 : field = "summary"
    · rw [if_pos c3] at h
      by_cases c4 : pyStrip msg ≠ ""
      · rw [if_pos c4] at h
        by_cases c5 : 255 < (pyStrip msg).length
        · rw [if_pos c5] at h
          right; cases Option.some.inj h; rfl
        · rw [if_neg c5] at h
          left; exact ⟨_, (Option.some.inj h).symm⟩
      · rw [if_neg c4] at h
        right; cases Option.some.inj h; rfl
    · rw [if_neg c3] at h
      by_cases c6 : field = "description"
      · rw [if_pos c6] at h
        by_cases c7 : isSkipInput (pyStrip msg) = true
        · rw [if_pos c7] at h
          left; exact ⟨_, (Option.some.inj h).symm⟩
        · rw [if_neg c7] at h
          left; exact ⟨_, (Option.some.inj h).symm⟩
      · rw [if_neg c6] at h
        by_cases c8 : field = "assignee"
        · rw [if_pos c8] at h
          by_cases c9 : isSkipInput (pyStrip msg) = true
          · rw [if_pos c9] at h
            left; exact ⟨_, (Option.some.inj h).symm⟩
          · rw [if_neg c9] at h
            by_cases c10 : validate_email (pyStrip msg) = true
            · rw [if_pos c10] at h
              left; exact ⟨_, (Option.some.inj h).symm⟩
            · rw [if_neg c10] at h
              right; cases Option.some.inj h; rfl
        · rw [if_neg c8] at h
          by_cases c11 : field = "start_date" ∨ field = "due_date"
          · rw [if_pos c11] at h
            by_cases c12 : isSkipInput (pyStrip msg) = true
            · rw [if_pos c12] at h
              left; exact ⟨_, (Option.some.inj h).symm⟩
            · rw [if_neg c12] at h
              by_cases c13 : validate_date (pyStrip msg) = true
              · rw [if_pos c13] at h
                left; exact ⟨_, (Option.some.inj h).symm⟩
              · rw [if_neg c13] at h
                right; cases Option.some.inj h; rfl
          · rw [if_neg c11] at h
            by_cases c14 : field = "parent_key"
            · rw [if_pos c14] at h
              by_cases c15 : isSkipInput (pyStrip msg) = true
              · rw [if_pos c15] at h
                left; exact ⟨_, (Option.some.inj h).symm⟩
              · rw [if_neg c15] at h
                by_cases c16 : issueKeyMatch (pyUpper (pyStrip msg)).data = true
                · rw [if_pos c16] at h
                  left; exact ⟨_, (Option.some.inj h).symm⟩
                · rw [if_neg c16] at h
                  right; cases Option.some.inj h; rfl
            · rw [if_neg c14] at h
              by_cases c17 : field = "labels"
              · rw [if_pos c17] at h
                by_cases c18 : isSkipInput (pyStrip msg) = true
                · rw [if_pos c18] at h
                  left; exact ⟨_, (Option.some.inj h).symm⟩
                · rw [if_neg c18] at h
                  by_cases c19 : pyLower (pyStrip msg) = "clear"
                  · rw [if_pos c19] at h
                    left; exact ⟨_, (Option.some.inj h).symm⟩
                  · rw [if_neg c19] at h
                    left; exact ⟨_, (Option.some.inj h).symm⟩
              · rw [if_neg c17] at h
                exact Option.noConfusion h

/-- Inversion of the ready branch of `process_direct_issue_creation`:
readiness forces the four required-field checks to have passed, and the
returned draft differs from the input only in `labels` and
`project_key`. -/
lemma process_direct_ready_inv (d : ExtractedIssueData)
    (h : (process_direct_issue_creation d).ready_for_jira = true) :
    (process_direct_issue_creation d).missing_fields = [] ∧
      (process_direct_issue_creation d).next_question = none ∧
      (process_direct_issue_creation d).extracted_data.issue_type = d.issue_type ∧
      (process_direct_issue_creation d).extracted_data.priority = d.priority ∧
      (process_direct_issue_creation d).extracted_data.summary = d.summary ∧
      (process_direct_issue_creation d).extracted_data.description = d.description ∧
      d.issue_type ≠ none ∧ d.priority ≠ none ∧
      pyFalsyStrOpt d.summary = false ∧ pyFalsyStrOpt d.description = false := by
  unfold process_direct_issue_creation at h ⊢
  by_cases hm :
      ((if d.issue_type = none then ["issue_type"] else []) ++
          (if d.priority = none then ["priority"] else []) ++
          (if pyFalsyStrOpt d.summary = true then ["summary"] else []) ++
          (if pyFalsyStrOpt d.description = true then ["description"] else [])) ≠ [] 
  · rw [if_pos hm] at h
    exact absurd h (by simp)
  · rw [if_neg hm] at h ⊢
    rw [not_not] at hm
    have h1 : ¬d.issue_type = none := by
      intro hc; rw [if_pos hc] at hm; simp at hm
    have h2 : ¬d.priority = none := by
      intro hc; rw [if_pos hc] at hm; simp at hm
    have h3 : ¬pyFalsyStrOpt d.summary = true := by
      intro hc; rw [if_pos hc] at hm; simp at hm
    have h4 : ¬pyFalsyStrOpt d.description = true := by
      intro hc; rw [if_pos hc] at hm; simp at hm
    have s4 : pyFalsyStrOpt d.description = false := by simpa using h4
    refine ⟨rfl, rfl, ?_, ?_, ?_, ?_, h1, h2, by simpa using h3, s4⟩ <;>
      by_cases hl : d.labels = [] <;>
      by_cases hp : pyFalsyStrOpt d.project_key = true <;>
      simp [hl, hp, s4]

/-- C1: the readiness invariant claims that every engine response with
`ready_for_jira = true` has empty `missing_fields`, no `next_question`,
and all of issue type, priority, summary, and description set in the
returned draft.  The guided-collection path refutes the last part: a
full interview whose `description` was answered with `skip` ends in a
ready response whose draft has `description` unset.  Concretely,
answering `skip` at the final `labels` prompt of `stSkippedDescription`
yields `ready_for_jira = true` with `description = none`. -/
theorem C1_ready_invariant_counterexample :
    (processMessage env0 stSkippedDescription "skip" (.failure "unused")).2.ready_for_jira
        = true ∧
      (processMessage env0 stSkippedDescription "skip"
            (.failure "unused")).2.missing_fields = [] ∧
      (processMessage env0 stSkippedDescription "skip"
            (.failure "unused")).2.next_question = none ∧
      (processMessage env0 stSkippedDescription "skip"
            (.failure "unused")).2.extracted_data.description = none := by
  exact ⟨rfl, rfl, rfl, rfl⟩

/-- C1 (amended): for guided-collection responses, readiness implies
empty `missing_fields` and no `next_question`; on the direct validation
path, readiness additionally implies that issue type, priority, summary,
and description are all set in the returned draft.  (The guided path
does not guarantee the four fields are set — optional fields such as
`description` may have been skipped — and the extraction path merely
forwards whatever readiness flags the extractor asserted.) -/
theorem C1_ready_invariant_amended :
    (∀ (env : PyEnv) (st : ConversationState) (msg field : String)
        (p : ConversationState × AgentResponse),
        handleFieldInput env st msg field = some p →
        p.2.ready_for_jira = true →
        p.2.missing_fields = [] ∧ p.2.next_question = none) ∧
    (∀ d : ExtractedIssueData,
        (process_direct_issue_creation d).ready_for_jira = true →
        (process_direct_issue_creation d).missing_fields = [] ∧
        (process_direct_issue_creation d).next_question = none ∧
        (process_direct_issue_creation d).extracted_data.issue_type ≠ none ∧
        (process_direct_issue_creation d).extracted_data.priority ≠ none ∧
        pyFalsyStrOpt (process_direct_issue_creation d).extracted_data.summary = false ∧
        pyFalsyStrOpt (process_direct_issue_creation d).extracted_data.description
          = false) := by
  constructor
  · intro env st msg field p hp hready
    rcases handleFieldInput_shape env st msg field p hp with ⟨σ, rfl⟩ | hfalse
    · exact getNextFieldPrompt_ready_inv env σ hready
    · rw [hfalse] at hready; exact absurd hready (by simp)
  · intro d hready
    obtain ⟨m1, m2, e1, e2, e3, e4, s1, s2, s3, s4⟩ :=
      process_direct_ready_inv d hready
    exact ⟨m1, m2, e1 ▸ s1, e2 ▸ s2, by rw [e3, s3], by rw [e4, s4]⟩

/-- C1 witness: the amended invariant applied to the concrete guided
turn of `stSkippedDescription` and to the concrete direct draft
`directDraft`. -/
theorem C1_ready_invariant_witness :
    (skipLabelsPair.2.missing_fields = [] ∧ skipLabelsPair.2.next_question = none) ∧
      ((process_direct_issue_creation directDraft).missing_fields = [] ∧
        (process_direct_issue_creation directDraft).next_question = none ∧
        (process_direct_issue_creation directDraft).extracted_data.issue_type ≠ none ∧
        (process_direct_issue_creation directDraft).extracted_data.priority ≠ none ∧
        pyFalsyStrOpt (process_direct_issue_creation directDraft).extracted_data.summary
            = false ∧
        pyFalsyStrOpt
            (process_direct_issue_creation directDraft).extracted_data.description
          = false) :=
  ⟨C1_ready_invariant_amended.1 env0 stSkippedDescription "skip" "labels"
      skipLabelsPair rfl rfl,
   C1_ready_invariant_amended.2 directDraft (by decide)⟩

/-- C2: the claim says entering guided collection starts at the first
field (in `FIELD_ORDER` order) whose draft value is unset, re-using
extractor-filled fields.  The code instead always starts at
`FIELD_ORDER[0]`: for `stTypeFilled`, whose `issue_type` is already
filled, the first gap is `priority`, yet the engine awaits
`issue_type`. -/
theorem C2_collection_start_counterexample :
    (startInteractiveCollection env0 stTypeFilled).1.awaiting_field = some "issue_type" ∧
      specFirstGapField stTypeFilled.draft = some "priority" ∧
      (startInteractiveCollection env0 stTypeFilled).1.awaiting_field ≠
        specFirstGapField stTypeFilled.draft := by
  exact ⟨rfl, by decide, by decide⟩

/-- C2 (amended): entering guided collection always sets the awaited
field to the registry's first entry (`FIELD_ORDER[0] = "issue_type"`),
regardless of which draft fields extraction already filled; fields
already filled are asked again. -/
theorem C2_collection_start_amended :
    ∀ (env : PyEnv) (st : ConversationState),
      (startInteractiveCollection env st).1.awaiting_field
          = some (FIELD_ORDER.headD "") ∧
        FIELD_ORDER.headD "" = "issue_type" ∧
        (startInteractiveCollection env st).2.missing_fields = ["issue_type"] ∧
        (startInteractiveCollection env st).2.ready_for_jira = false := by
  intro env st
  exact ⟨rfl, rfl, rfl, rfl⟩

/-- C10: the class defines `process_direct_issue_creation` twice and the
second definition shadows the first, so a fully-specified draft with no
project key gets the default `"MFLP"` (never the first definition's
`"TJ"`). -/
theorem C10_direct_default_mflp :
    ∀ d : ExtractedIssueData,
      d.issue_type ≠ none → d.priority ≠ none →
      pyFalsyStrOpt d.summary = false → pyFalsyStrOpt d.description = false →
      pyFalsyStrOpt d.project_key = true →
      (process_direct_issue_creation d).extracted_data.project_key = some "MFLP" ∧
        (process_direct_issue_creation d).ready_for_jira = true ∧
        (process_direct_issue_creation d).extracted_data.project_key ≠ some "TJ" ∧
        (process_direct_issue_creation_shadowed d).extracted_data.project_key
          = some "TJ" := by
  intro d h1 h2 h3 h4 h5
  unfold process_direct_issue_creation process_direct_issue_creation_shadowed
  have hm :
      ¬((if d.issue_type = none then ["issue_type"] else []) ++
          (if d.priority = none then ["priority"] else []) ++
          (if pyFalsyStrOpt d.summary = true then ["summary"] else []) ++
          (if pyFalsyStrOpt d.description = true then ["description"] else [])) ≠ [] := by
    rw [not_not, if_neg h1, if_neg h2, if_neg (by simp [h3]), if_neg (by simp [h4])]
    rfl
  rw [if_neg hm, if_neg hm]
  refine ⟨?_, ?_, ?_, ?_⟩ <;>
    by_cases hl : d.labels = [] <;>
    simp [hl, h4, h5]

/-- C10 witness: the theorem applied to the concrete direct draft
`directDraft`. -/
theorem C10_direct_default_mflp_witness :
    (process_direct_issue_creation directDraft).extracted_data.project_key
        = some "MFLP" ∧
      (process_direct_issue_creation directDraft).ready_for_jira = true ∧
      (process_direct_issue_creation directDraft).extracted_data.project_key
          ≠ some "TJ" ∧
      (process_direct_issue_creation_shadowed directDraft).extracted_data.project_key
        = some "TJ" :=
  C10_direct_default_mflp directDraft (by decide) (by decide) (by decide)
    (by decide) (by decide)

/-- The merge step of `_extract_intent_and_data` only ever replaces
`extracted_data`; every other response field passes through. -/
lemma mergeWithState_fields (env : PyEnv) (st : ConversationState)
    (r : AgentResponse) :
    (mergeWithState env st r).intent = r.intent ∧
      (mergeWithState env st r).response_message = r.response_message ∧
      (mergeWithState env st r).error = r.error ∧
      (mergeWithState env st r).ready_for_jira = r.ready_for_jira := by
  unfold mergeWithState
  cases hci : st.current_intent with
  | none => exact ⟨rfl, rfl, rfl, rfl⟩
  | some ci =>
    dsimp only
    by_cases hc : ci = r.intent
    · rw [if_pos hc]; exact ⟨rfl, rfl, rfl, rfl⟩
    · rw [if_neg hc]; exact ⟨rfl, rfl, rfl, rfl⟩

/-- On the extraction path, when the extracted intent is not `create`,
the turn's response is exactly the extractor-classified response. -/
lemma processMessage_extract_resp (env : PyEnv) (st : ConversationState)
    (msg : String) (r : ExtractorResult)
    (hearly : earlyCollection env st msg = none)
    (hne :
      (extractIntentAndData env
            { st with conversation_history :=
                st.conversation_history ++ ["User: " ++ msg] } r).intent
        ≠ Intent.create_issue) :
    (processMessage env st msg r).2 =
      extractIntentAndData env
        { st with conversation_history :=
            st.conversation_history ++ ["User: " ++ msg] } r := by
  unfold processMessage
  rw [hearly]
  dsimp only
  rw [if_neg (fun hc => hne hc.1)]

/-- C4: merging extractor labels is a union over the existing labels,
and the claim says a non-skip guided `description` answer always
replaces the draft labels with the freshly inferred set.  The code only
replaces them when the inferred set is nonempty: answering `hello`
(which infers no labels) at the `description` prompt of
`stLegacyLabels` keeps the old labels `["legacy-tag"]` instead of
replacing them with the freshly inferred empty set. -/
theorem C4_label_replacement_counterexample :
    (handleFieldInput env0 stLegacyLabels "hello" "description").map
        (fun p => (p.1.draft.labels, p.1.draft.description)) =
      some (["legacy-tag"], some "hello") ∧
      generate_labels_from_description "hello" = [] ∧
      (["legacy-tag"] : List String) ≠ [] := by
  exact ⟨rfl, rfl, by decide⟩

/-- C4 (amended): labels merged from extractor output are the union of
the stored and newly extracted label sets (no stored label is lost),
and a non-skip guided `description` answer whose inferred label set is
nonempty replaces the draft labels with exactly that set (when
inference yields nothing, prior labels are preserved). -/
theorem C4_label_union_and_replacement_amended :
    (∀ env : PyEnv, SetEnumOK env.setEnum →
      ∀ (ex new : ExtractedIssueData) (l : String),
        l ∈ (mergeIssueData env ex new).labels ↔
          l ∈ ex.labels ∨ l ∈ new.labels) ∧
    (∀ (env : PyEnv) (st : ConversationState) (msg : String)
        (p : ConversationState × AgentResponse),
        handleFieldInput env st msg "description" = some p →
        isSkipInput (pyStrip msg) = false →
        generate_labels_from_description (pyStrip msg) ≠ [] →
        p.1.draft.labels = generate_labels_from_description (pyStrip msg) ∧
          p.1.draft.description = some (pyStrip msg)) := by
  constructor
  · intro env he ex new l
    rw [show (mergeIssueData env ex new).labels
        = env.setEnum (ex.labels ++ new.labels) from rfl]
    rw [(he (ex.labels ++ new.labels)).2 l, List.mem_append]
  · intro env st msg p hp hskip hgen
    unfold handleFieldInput at hp
    rw [if_neg (by decide :
        ¬((CHOICE_MAPS "description").isSome = true))] at hp
    rw [if_neg (by decide : ¬(("description" : String) = "summary"))] at hp
    rw [if_pos (rfl : ("description" : String) = "description")] at hp
    rw [if_neg (by simp [hskip])] at hp
    rw [if_pos hgen] at hp
    cases Option.some.inj hp
    constructor
    · rw [getNextFieldPrompt_draft]
    · rw [getNextFieldPrompt_draft]

/-- C4 witness: the union conjunct at a concrete pair of drafts under
the lawful enumeration `dedupFirst`, and the replacement conjunct at the
concrete `description` answer of `descAnswerPair`. -/
theorem C4_label_union_and_replacement_witness :
    ("legacy-tag" ∈ (mergeIssueData env0
          ({ labels := ["legacy-tag"] } : ExtractedIssueData)
          ({ labels := ["api"] } : ExtractedIssueData)).labels ↔
        "legacy-tag" ∈ (["legacy-tag"] : List String) ∨
          "legacy-tag" ∈ (["api"] : List String)) ∧
      (descAnswerPair.1.draft.labels =
          generate_labels_from_description (pyStrip "API timeout on login") ∧
        descAnswerPair.1.draft.description = some (pyStrip "API timeout on login")) :=
  ⟨C4_label_union_and_replacement_amended.1 env0 dedupFirst_lawful
      { labels := ["legacy-tag"] } { labels := ["api"] } "legacy-tag",
   C4_label_union_and_replacement_amended.2 env0 stLegacyLabels
      "API timeout on login" descAnswerPair rfl (by decide) (by decide)⟩

/-- C7: `process_message` is total over error outcomes.  The embedded
turn body is a total function, so no turn raises; the turn-boundary
handler converts any internal fault into an unknown-intent response
carrying the error text; an extractor call failure degrades to the
unknown-intent clarification response with the `LLM error:` descriptor;
unparsable extractor content degrades to the unknown-intent generic
clarification with the `JSON parsing error:` descriptor. -/
theorem C7_error_degradation :
    (∀ (env : PyEnv) (st : ConversationState) (msg : String)
        (r : ExtractorResult) (e : String),
        processMessageCaught env st msg r (some e) = turnErrorResponse e ∧
          (turnErrorResponse e).intent = Intent.unknown ∧
          (turnErrorResponse e).error = some e ∧
          (turnErrorResponse e).ready_for_jira = false) ∧
    (∀ (env : PyEnv) (st : ConversationState) (msg err : String),
        earlyCollection env st msg = none →
        (processMessage env st msg (.failure err)).2.intent = Intent.unknown ∧
          (processMessage env st msg (.failure err)).2.response_message =
            "I'm having trouble understanding that request. Try 'create an issue' or 'what's the status of TJ-123?'" ∧
          (processMessage env st msg (.failure err)).2.error
            = some ("LLM error: " ++ err)) ∧
    (∀ (env : PyEnv) (st : ConversationState) (msg err : String),
        earlyCollection env st msg = none →
        (processMessage env st msg (.unparsable err)).2.intent = Intent.unknown ∧
          (processMessage env st msg (.unparsable err)).2.response_message =
            "I understand you want to work with Jira, but I need a clearer request. Try saying 'create an issue' or 'what's the status of TJ-123?'" ∧
          (processMessage env st msg (.unparsable err)).2.error
            = some ("JSON parsing error: " ++ err)) := by
  refine ⟨fun env st msg r e => ⟨rfl, rfl, rfl, rfl⟩, ?_, ?_⟩
  · intro env st msg err hearly
    rw [processMessage_extract_resp env st msg (.failure err) hearly
      (by rw [show (extractIntentAndData env
          { st with conversation_history :=
              st.conversation_history ++ ["User: " ++ msg] }
          (.failure err)).intent = Intent.unknown from rfl]; decide)]
    exact ⟨rfl, rfl, rfl⟩
  · intro env st msg err hearly
    rw [processMessage_extract_resp env st msg (.unparsable err) hearly
      (by simp only [extractIntentAndData]
          rw [(mergeWithState_fields _ _ _).1]
          intro hc
          exact Intent.noConfusion hc)]
    simp only [extractIntentAndData]
    obtain ⟨hi, hmsg, herr, _⟩ := mergeWithState_fields env
      { st with conversation_history :=
          st.conversation_history ++ ["User: " ++ msg] }
      { intent := .unknown
        confidence := 0
        extracted_data := {}
        missing_fields := []
        next_question := none
        ready_for_jira := false
        response_message := "I understand you want to work with Jira, but I need a clearer request. Try saying 'create an issue' or 'what's the status of TJ-123?'"
        error := some ("JSON parsing error: " ++ err) }
    exact ⟨hi, hmsg, herr⟩

/-- C7 witness: the three degradation conjuncts at concrete inputs —
the turn-boundary handler at an internal fault `"oops"`, and the
extractor `failure`/`unparsable` outcomes for the idle state. -/
theorem C7_error_degradation_witness :
    (processMessageCaught env0 stIdle "hi" (.failure "boom") (some "oops")
          = turnErrorResponse "oops" ∧
        (turnErrorResponse "oops").intent = Intent.unknown ∧
        (turnErrorResponse "oops").error = some "oops" ∧
        (turnErrorResponse "oops").ready_for_jira = false) ∧
      ((processMessage env0 stIdle "hi" (.failure "boom")).2.intent
            = Intent.unknown ∧
        (processMessage env0 stIdle "hi" (.failure "boom")).2.response_message =
          "I'm having trouble understanding that request. Try 'create an issue' or 'what's the status of TJ-123?'" ∧
        (processMessage env0 stIdle "hi" (.failure "boom")).2.error
          = some ("LLM error: " ++ "boom")) ∧
      ((processMessage env0 stIdle "hi" (.unparsable "bad")).2.intent
            = Intent.unknown ∧
        (processMessage env0 stIdle "hi" (.unparsable "bad")).2.response_message =
          "I understand you want to work with Jira, but I need a clearer request. Try saying 'create an issue' or 'what's the status of TJ-123?'" ∧
        (processMessage env0 stIdle "hi" (.unparsable "bad")).2.error
          = some ("JSON parsing error: " ++ "bad")) :=
  ⟨C7_error_degradation.1 env0 stIdle "hi" (.failure "boom") "oops",
   C7_error_degradation.2.1 env0 stIdle "hi" "boom" rfl,
   C7_error_degradation.2.2 env0 stIdle "hi" "bad" rfl⟩

/-- C9: the claim says a guided labels answer yields exactly the
normalized input tokens unioned with the existing labels, with the
display order of previously collected labels preserved.  The code stores
`list(set(existing + manual))`, whose CPython iteration order is hash
order and thus unspecified: under the admissible enumeration `dedupRev`
(deduplicate after reversing, lawful by `dedupRev_lawful`), adding `c`
to the collected labels `["b-lab", "a-lab"]` stores
`["c", "a-lab", "b-lab"]`, in which the previously collected labels
appear in the order `["a-lab", "b-lab"]` — their display order is not
preserved. -/
theorem C9_labels_order_counterexample :
    (handleFieldInput envR stTwoLabels "c" "labels").map
        (fun p => p.1.draft.labels) = some ["c", "a-lab", "b-lab"] ∧
      stTwoLabels.draft.labels = ["b-lab", "a-lab"] ∧
      (["c", "a-lab", "b-lab"].filter
          (fun l => l ∈ (["b-lab", "a-lab"] : List String)))
        ≠ ["b-lab", "a-lab"] := by
  exact ⟨rfl, rfl, by decide⟩

/-- C9 (amended): for every admissible `list(set(...))` enumeration, a
guided labels answer that is not skip/none/empty/clear stores a
duplicate-free list whose members are exactly the comma-split, trimmed,
lowercased, space-to-hyphen-normalized input tokens together with the
existing labels; the order of the stored list is the set-enumeration
order and is not otherwise specified. -/
theorem C9_labels_union_amended :
    ∀ env : PyEnv, SetEnumOK env.setEnum →
      ∀ (st : ConversationState) (msg : String)
        (p : ConversationState × AgentResponse),
        handleFieldInput env st msg "labels" = some p →
        isSkipInput (pyStrip msg) = false →
        pyLower (pyStrip msg) ≠ "clear" →
        ∀ l : String,
          p.1.draft.labels.Nodup ∧
            (l ∈ p.1.draft.labels ↔
              l ∈ st.draft.labels ∨ l ∈ manualLabelsOf (pyStrip msg)) := by
  intro env he st msg p hp hskip hclear l
  unfold handleFieldInput at hp
  rw [if_neg (by decide : ¬((CHOICE_MAPS "labels").isSome = true))] at hp
  rw [if_neg (by decide : ¬(("labels" : String) = "summary"))] at hp
  rw [if_neg (by decide : ¬(("labels" : String) = "description"))] at hp
  rw [if_neg (by decide : ¬(("labels" : String) = "assignee"))] at hp
  rw [if_neg (by decide :
      ¬(("labels" : String) = "start_date" ∨ ("labels" : String) = "due_date"))] at hp
  rw [if_neg (by decide : ¬(("labels" : String) = "parent_key"))] at hp
  rw [if_pos (rfl : ("labels" : String) = "labels")] at hp
  rw [if_neg (by simp [hskip])] at hp
  rw [if_neg hclear] at hp
  cases Option.some.inj hp
  rw [getNextFieldPrompt_draft]
  refine ⟨(he _).1, ?_⟩
  dsimp only
  rw [(he _).2 l, List.mem_append]

/-- C9 witness: the amended union property at the concrete labels answer
`"New Label, API"` for `stTwoLabels`, under the lawful enumeration
`dedupFirst`, instantiated at the token `"new-label"`. -/
theorem C9_labels_union_witness :
    addLabelsPair.1.draft.labels.Nodup ∧
      ("new-label" ∈ addLabelsPair.1.draft.labels ↔
        "new-label" ∈ stTwoLabels.draft.labels ∨
          "new-label" ∈ manualLabelsOf (pyStrip "New Label, API")) :=
  C9_labels_union_amended env0 dedupFirst_lawful stTwoLabels "New Label, API"
    addLabelsPair rfl (by decide) (by decide) "new-label"

/-- Every input rejected by a validation branch of `_handle_field_input`
yields the unchanged state together with the re-prompt for the same
field carrying that branch's error text. -/
lemma handleFieldInput_invalid (env : PyEnv) (st : ConversationState)
    (msg field : String) (hinv : fieldInputInvalid field msg = true) :
    handleFieldInput env st msg field =
      some (st, getFieldPrompt env st field (some (fieldErrorMsg field msg))) := by
  unfold fieldInputInvalid at hinv
  unfold handleFieldInput fieldErrorMsg
  by_cases c1 : (CHOICE_MAPS field).isSome = true
  · rw [if_pos c1] at hinv ⊢
    rw [if_pos c1]
    rcases hic : interpret_choice field (pyStrip msg) with _ | choice
    · rfl
    · rw [hic] at hinv
      exact absurd hinv (by simp)
  · rw [if_neg c1] at hinv ⊢
    rw [if_neg c1]
    by_cases c3 : field = "summary"
    · rw [if_pos c3] at hinv ⊢
      rw [if_pos c3]
      by_cases c4 : pyStrip msg = ""
      · rw [if_neg (by simpa using c4), if_pos c4]
      · have c5 : 255 < (pyStrip msg).length := by
          simp [c4] at hinv
          exact hinv
        rw [if_pos c4, if_neg c4, if_pos c5]
    · rw [if_neg c3] at hinv ⊢
      rw [if_neg c3]
      by_cases c6 : field = "description"
      · exfalso
        rw [c6] at hinv
        simp at hinv
      · rw [if_neg c6]
        by_cases c8 : field = "assignee"
        · rw [if_pos c8] at hinv ⊢
          rw [if_pos c8]
          obtain ⟨k1, k2⟩ := Bool.and_eq_true_iff.1 hinv
          rw [if_neg (by simpa using k1), if_neg (by simpa using k2)]
        · rw [if_neg c8] at hinv ⊢
          rw [if_neg c8]
          by_cases c11 : field = "start_date" ∨ field = "due_date"
          · rw [if_pos c11] at hinv ⊢
            rw [if_pos c11]
            obtain ⟨k1, k2⟩ := Bool.and_eq_true_iff.1 hinv
            rw [if_neg (by simpa using k1), if_neg (by simpa using k2)]
          · rw [if_neg c11] at hinv ⊢
            rw [if_neg c11]
            by_cases c14 : field = "parent_key"
            · rw [if_pos c14] at hinv
              rw [if_pos c14]
              obtain ⟨k1, k2⟩ := Bool.and_eq_true_iff.1 hinv
              rw [if_neg (by simpa using k1), if_neg (by simpa using k2)]
            · rw [if_neg c14] at hinv
              exact absurd hinv (by simp)

/-- C6: a validation failure never advances state and is never fatal.
For every awaited field and every input failing that field's format rule
(invalid menu choice; empty or over-255-character summary; malformed
non-skip email, date, or issue key), the turn returns the re-prompt for
the same field with that branch's human-readable error, and leaves both
the draft and `awaiting_field` unchanged. -/
theorem C6_validation_failure_frame :
    ∀ (env : PyEnv) (st : ConversationState) (msg field : String)
      (r : ExtractorResult),
      st.awaiting_field = some field → field ≠ "" →
      fieldInputInvalid field msg = true →
      (processMessage env st msg r).1.draft = st.draft ∧
        (processMessage env st msg r).1.awaiting_field = st.awaiting_field ∧
        (processMessage env st msg r).2 =
          getFieldPrompt env st field (some (fieldErrorMsg field msg)) ∧
        (processMessage env st msg r).2.missing_fields = [field] ∧
        (processMessage env st msg r).2.ready_for_jira = false ∧
        (processMessage env st msg r).2.next_question =
          some (processMessage env st msg r).2.response_message := by
  intro env st msg field r hawait hne hinv
  have hearly : earlyCollection env st msg =
      some (st, getFieldPrompt env st field (some (fieldErrorMsg field msg))) := by
    unfold earlyCollection
    rw [hawait]
    dsimp only
    rw [if_pos hne]
    exact handleFieldInput_invalid env st msg field hinv
  unfold processMessage
  rw [hearly]
  exact ⟨rfl, rfl, rfl, rfl, rfl, rfl⟩

/-- C6 witness: the frame property at the spec's own scenario — replying
`not-an-email` to an assignee prompt. -/
theorem C6_validation_failure_frame_witness :
    (processMessage env0 stAwaitAssignee "not-an-email" (.failure "x")).1.draft
        = stAwaitAssignee.draft ∧
      (processMessage env0 stAwaitAssignee "not-an-email"
            (.failure "x")).1.awaiting_field = stAwaitAssignee.awaiting_field ∧
      (processMessage env0 stAwaitAssignee "not-an-email" (.failure "x")).2 =
        getFieldPrompt env0 stAwaitAssignee "assignee"
          (some (fieldErrorMsg "assignee" "not-an-email")) ∧
      (processMessage env0 stAwaitAssignee "not-an-email"
            (.failure "x")).2.missing_fields = ["assignee"] ∧
      (processMessage env0 stAwaitAssignee "not-an-email"
            (.failure "x")).2.ready_for_jira = false ∧
      (processMessage env0 stAwaitAssignee "not-an-email"
            (.failure "x")).2.next_question =
        some (processMessage env0 stAwaitAssignee "not-an-email"
            (.failure "x")).2.response_message :=
  C6_validation_failure_frame env0 stAwaitAssignee "not-an-email" "assignee"
    (.failure "x") rfl (by decide) (by decide)

/-- The first-seen keyword fold of the Label Inferencer equals the
deduplicating fold over the filtered word list. -/
lemma labelsFold_eq_dedup :
    ∀ (xs acc : List String),
      xs.foldl
          (fun acc w => if w ∈ tech_keywords ∧ w ∉ acc then acc ++ [w] else acc)
          acc =
        (xs.filter (fun w => w ∈ tech_keywords)).foldl
          (fun a w => if w ∈ a then a else a ++ [w]) acc := by
  intro xs
  induction xs with
  | nil => intro acc; rfl
  | cons x xs ih =>
    intro acc
    rw [List.foldl_cons]
    by_cases hx : x ∈ tech_keywords
    · rw [List.filter_cons_of_pos (by simpa using hx), List.foldl_cons]
      by_cases hxa : x ∈ acc
      · rw [if_neg (by tauto), if_pos hxa]
        exact ih acc
      · rw [if_pos ⟨hx, hxa⟩, if_neg hxa]
        exact ih (acc ++ [x])
    · rw [List.filter_cons_of_neg (by simpa using hx)]
      rw [if_neg (by tauto)]
      exact ih acc

/-- The compound-phrase fold of the Label Inferencer only appends, and
everything appended is a compound label name. -/
lemma compoundFold_append (q : String × List String → Bool) :
    ∀ (pairs : List (String × List String)) (acc : List String),
      ∃ t : List String,
        pairs.foldl
            (fun acc lk => if q lk ∧ lk.1 ∉ acc then acc ++ [lk.1] else acc)
            acc = acc ++ t ∧
          ∀ l ∈ t, l ∈ pairs.map Prod.fst := by
  intro pairs
  induction pairs with
  | nil => intro acc; exact ⟨[], by simp, by simp⟩
  | cons pk pairs ih =>
    intro acc
    rw [List.foldl_cons]
    by_cases hc : q pk ∧ pk.1 ∉ acc
    · rw [if_pos hc]
      obtain ⟨t, ht, hmem⟩ := ih (acc ++ [pk.1])
      refine ⟨pk.1 :: t, by simpa using ht, ?_⟩
      intro l hl
      rcases List.mem_cons.1 hl with rfl | hl
      · simp
      · simp only [List.map_cons, List.mem_cons]
        exact Or.inr (hmem l hl)
    · rw [if_neg hc]
      obtain ⟨t, ht, hmem⟩ := ih acc
      refine ⟨t, ht, ?_⟩
      intro l hl
      simp only [List.map_cons, List.mem_cons]
      exact Or.inr (hmem l hl)

/-- The compound-phrase fold preserves `Nodup`. -/
lemma compoundFold_nodup (q : String × List String → Bool) :
    ∀ (pairs : List (String × List String)) (acc : List String),
      acc.Nodup →
      (pairs.foldl
          (fun acc lk => if q lk ∧ lk.1 ∉ acc then acc ++ [lk.1] else acc)
          acc).Nodup := by
  intro pairs
  induction pairs with
  | nil => intro acc h; simpa using h
  | cons pk pairs ih =>
    intro acc h
    rw [List.foldl_cons]
    by_cases hc : q pk ∧ pk.1 ∉ acc
    · rw [if_pos hc]
      exact ih _ (by simp [List.nodup_append, h, hc.2])
    · rw [if_neg hc]
      exact ih acc h

/-- C5: label inference is a deterministic pure function of the text;
its result never exceeds 5 entries and has no duplicates; it is a
truncation of the first-seen simple-keyword matches followed by
compound-phrase labels; and for
`"API timeout on login for mobile users"` it contains `api`, `login`,
and `mobile`. -/
theorem C5_label_inference :
    (∀ s : String,
        generate_labels_from_description s = generate_labels_from_description s) ∧
    (∀ s : String, (generate_labels_from_description s).length ≤ 5) ∧
    (∀ s : String, (generate_labels_from_description s).Nodup) ∧
    (∀ s : String, ∃ extra : List String,
        generate_labels_from_description s =
          (dedupFirst ((wordRuns (pyLower s).data).filter
              (fun w => w ∈ tech_keywords)) ++ extra).take 5 ∧
          ∀ l ∈ extra, l ∈ compound_keywords.map Prod.fst) ∧
    ("api" ∈ generate_labels_from_description
        "API timeout on login for mobile users" ∧
      "login" ∈ generate_labels_from_description
        "API timeout on login for mobile users" ∧
      "mobile" ∈ generate_labels_from_description
        "API timeout on login for mobile users") := by
  refine ⟨fun s => rfl, ?_, ?_, ?_, by decide, by decide, by decide⟩
  · intro s
    unfold generate_labels_from_description
    by_cases hs : s = ""
    · rw [if_pos hs]; simp
    · rw [if_neg hs, List.length_take]
      exact Nat.min_le_left _ _
  · intro s
    unfold generate_labels_from_description
    by_cases hs : s = ""
    · rw [if_pos hs]; simp
    · rw [if_neg hs]
      refine List.Nodup.sublist (List.take_sublist _ _) ?_
      refine compoundFold_nodup _ compound_keywords _ ?_
      rw [labelsFold_eq_dedup]
      exact dedupFold_nodup _ [] (by simp)
  · intro s
    unfold generate_labels_from_description
    by_cases hs : s = ""
    · rw [if_pos hs]
      refine ⟨[], ?_, by simp⟩
      rw [hs]
      rfl
    · rw [if_neg hs]
      obtain ⟨t, ht, hmem⟩ := compoundFold_append
        (fun lk => lk.2.any (fun kw => isSubstrOf kw.data (pyLower s).data))
        compound_keywords
        ((wordRuns (pyLower s).data).foldl
          (fun acc w => if w ∈ tech_keywords ∧ w ∉ acc then acc ++ [w] else acc)
          [])
      refine ⟨t, ?_, hmem⟩
      rw [ht, labelsFold_eq_dedup]
      rfl

/-- `find?` returns the unique element satisfying the predicate. -/
lemma find_eq_some_of_unique {α : Type} (p : α → Bool) :
    ∀ (l : List α) (c : α), c ∈ l → p c = true →
      (∀ a ∈ l, p a = true → a = c) → l.find? p = some c := by
  intro l
  induction l with
  | nil => intro c hc _ _; cases hc
  | cons x xs ih =>
    intro c hc hpc hun
    by_cases hx : p x = true
    · have hxc : x = c := hun x (by simp) hx
      subst hxc
      rw [List.find?_cons_of_pos _ hx]
    · rw [List.find?_cons_of_neg _ (by simpa using hx)]
      have hc' : c ∈ xs := by
        rcases List.mem_cons.1 hc with rfl | h
        · exact absurd hpc hx
        · exact h
      exact ih c hc' hpc (fun a ha hpa => hun a (List.mem_cons_of_mem _ ha) hpa)

/-- Within each menu's declared choice list, at most one choice matches
any given lowered input textually. -/
lemma choiceMaps_match_unique :
    ∀ (field : String) (opts : List String), CHOICE_MAPS field = some opts →
      ∀ (t c₁ c₂ : String), c₁ ∈ opts → c₂ ∈ opts →
        optTextMatch t c₁ = true → optTextMatch t c₂ = true → c₁ = c₂ := by
  intro field opts h
  unfold CHOICE_MAPS at h
  split at h <;>
    [cases h; cases h; cases h; exact Option.noConfusion h] <;>
    intro t c₁ c₂ hc₁ hc₂ m₁ m₂ <;>
    unfold optTextMatch at m₁ m₂ <;>
    fin_cases hc₁ <;> fin_cases hc₂ <;>
    first
    | rfl
    | (simp only [Bool.or_eq_true, decide_eq_true_eq] at m₁
       rcases m₁ with h1 | h1 <;> subst h1 <;> exact absurd m₂ (by decide))

/-- C3: the claim says any case/space/hyphen-insensitive textual variant
of a declared choice maps to that choice.  The code only normalizes the
declared choice, not the input: `to-do` is such a variant of the status
choice `To Do` (both normalize to `todo`), yet `interpret_choice`
rejects it, because the lowered input is compared unchanged against the
choice's lowered and squashed forms and input-side hyphens are never
stripped. -/
theorem C3_menu_variant_counterexample :
    isChoiceVariantOf "to-do" "To Do" = true ∧
      "To Do" ∈ (CHOICE_MAPS "status").getD [] ∧
      interpret_choice "status" "to-do" = none := by
  exact ⟨by decide, by decide, rfl⟩

/-- C3 (amended): a 1-based numeric index within the declared choice
list maps to exactly that entry; non-numeric input maps to a choice
exactly when, after trimming and lowercasing, it equals the choice's
lowercase form or the choice's lowercase form with spaces and hyphens
removed (the insensitivity applies to the declared choice only — input
hyphens or spaces are not normalized); every input `interpret_choice`
rejects re-prompts the same menu field with an invalid-choice error and
leaves the state unchanged. -/
theorem C3_menu_interpretation_amended :
    (∀ (field : String) (opts : List String) (s : String),
        CHOICE_MAPS field = some opts →
        pyIsDigit (pyLower (pyStrip s)) = true →
        1 ≤ strToNat (pyLower (pyStrip s)) →
        strToNat (pyLower (pyStrip s)) ≤ opts.length →
        interpret_choice field s = opts[strToNat (pyLower (pyStrip s)) - 1]?) ∧
    (∀ (field : String) (opts : List String) (s c : String),
        CHOICE_MAPS field = some opts →
        pyIsDigit (pyLower (pyStrip s)) = false →
        (interpret_choice field s = some c ↔
          c ∈ opts ∧ optTextMatch (pyLower (pyStrip s)) c = true)) ∧
    (∀ (env : PyEnv) (st : ConversationState) (msg field : String),
        (CHOICE_MAPS field).isSome = true →
        interpret_choice field (pyStrip msg) = none →
        handleFieldInput env st msg field =
          some (st, getFieldPrompt env st field
            (some "Invalid choice. Please try again."))) := by
  refine ⟨?_, ?_, ?_⟩
  · intro field opts s h hdig h1 h2
    unfold interpret_choice
    rw [h]
    rw [if_pos ⟨hdig, by simpa using h1, by simpa using h2⟩]
    rfl
  · intro field opts s c h hdig
    unfold interpret_choice
    rw [h]
    rw [if_neg (by simp [hdig])]
    constructor
    · intro hf
      exact ⟨List.mem_of_find?_eq_some hf, List.find?_some hf⟩
    · rintro ⟨hc, hm⟩
      refine find_eq_some_of_unique _ _ c hc hm ?_
      intro a ha hpa
      exact choiceMaps_match_unique field opts h (pyLower (pyStrip s)) a c ha hc hpa hm
  · intro env st msg field hsome hnone
    unfold handleFieldInput
    rw [if_pos hsome, hnone]

/-- C3 witness: the numeric rule at `"2"` for the issue-type menu, the
textual characterization at `"inprogress"` for the status menu, and the
rejection rule at `"to-do"` for the status menu in the idle state. -/
theorem C3_menu_interpretation_witness :
    (interpret_choice "issue_type" "2" =
        (["Task", "Story", "Epic"] :
            List String)[strToNat (pyLower (pyStrip "2")) - 1]?) ∧
      (interpret_choice "status" "inprogress" = some "In Progress" ↔
        "In Progress" ∈ ["To Do", "In Progress", "In Review"] ∧
          optTextMatch (pyLower (pyStrip "inprogress")) "In Progress" = true) ∧
      handleFieldInput env0 stIdle "to-do" "status" =
        some (stIdle, getFieldPrompt env0 stIdle "status"
          (some "Invalid choice. Please try again.")) :=
  ⟨C3_menu_interpretation_amended.1 "issue_type" ["Task", "Story", "Epic"] "2"
      rfl (by decide) (by decide) (by decide),
   C3_menu_interpretation_amended.2.1 "status" ["To Do", "In Progress", "In Review"]
      "inprogress" "In Progress" rfl (by decide),
   C3_menu_interpretation_amended.2.2 env0 stIdle "to-do" "status" (by decide) rfl⟩

/-- A digit character's value is at most 9. -/
lemma digVal_le_nine {c : Char} (h : isDigitC c = true) : digVal c ≤ 9 := by
  unfold isDigitC at h
  simp only [Bool.and_eq_true, decide_eq_true_eq] at h
  unfold digVal
  have h0 : ('0').toNat = 48 := rfl
  omega

/-- `digitsVal` of a singleton. -/
lemma digitsVal_one (c : Char) : digitsVal [c] = digVal c := by
  simp [digitsVal]

/-- `digitsVal` of a two-digit string. -/
lemma digitsVal_two (c1 c2 : Char) :
    digitsVal [c1, c2] = 10 * digVal c1 + digVal c2 := by
  simp [digitsVal]

/-- `digitsVal` of a four-digit string. -/
lemma digitsVal_four (a b c d : Char) :
    digitsVal [a, b, c, d] =
      1000 * digVal a + 100 * digVal b + 10 * digVal c + digVal d := by
  simp [digitsVal]
  ring

/-- No month has more than 31 days. -/
lemma daysInMonth_le31 (y m : Nat) : daysInMonth y m ≤ 31 := by
  unfold daysInMonth
  split_ifs <;> omega

/-- `expectChar` succeeds exactly on the expected head. -/
lemma expectChar_eq_some {c : Char} {l r : List Char}
    (h : expectChar c l = some r) : l = c :: r := by
  rcases l with _ | ⟨x, l⟩
  · exact Option.noConfusion h
  · simp only [expectChar] at h
    by_cases hx : x = c
    · subst hx
      rw [if_pos rfl] at h
      rw [Option.some.inj h]
    · rw [if_neg hx] at h
      exact Option.noConfusion h

/-- `expectChar` consumes a matching head. -/
lemma expectChar_cons (c : Char) (r : List Char) :
    expectChar c (c :: r) = some r := by
  simp [expectChar]

/-- Destructuring equality of `some` pairs. -/
lemma some_pair_inj {α β : Type} {a c : α} {b d : β}
    (h : (some (a, b) : Option (α × β)) = some (c, d)) : a = c ∧ b = d := by
  cases Option.some.inj h
  exact ⟨rfl, rfl⟩

/-- Inversion of the `%Y` parser. -/
lemma parseY4_eq_some {l r : List Char} {y : Nat}
    (h : parseY4 l = some (y, r)) :
    ∃ a b c d : Char, l = a :: b :: c :: d :: r ∧
      isDigitC a = true ∧ isDigitC b = true ∧ isDigitC c = true ∧
      isDigitC d = true ∧
      y = 1000 * digVal a + 100 * digVal b + 10 * digVal c + digVal d := by
  rcases l with _ | ⟨a, l⟩
  · exact Option.noConfusion h
  rcases l with _ | ⟨b, l⟩
  · exact Option.noConfusion h
  rcases l with _ | ⟨c, l⟩
  · exact Option.noConfusion h
  rcases l with _ | ⟨d, rest⟩
  · exact Option.noConfusion h
  unfold parseY4 at h
  dsimp only at h
  by_cases hc : isDigitC a = true ∧ isDigitC b = true ∧ isDigitC c = true ∧
      isDigitC d = true
  · rw [if_pos hc] at h
    obtain ⟨hy, hr⟩ := some_pair_inj h
    exact ⟨a, b, c, d, by rw [hr], hc.1, hc.2.1, hc.2.2.1, hc.2.2.2, hy.symm⟩
  · rw [if_neg hc] at h
    exact Option.noConfusion h

/-- Construction of the `%Y` parser. -/
lemma parseY4_app {a b c d : Char} (r : List Char)
    (ha : isDigitC a = true) (hb : isDigitC b = true)
    (hc : isDigitC c = true) (hd : isDigitC d = true) :
    parseY4 (a :: b :: c :: d :: r) =
      some (1000 * digVal a + 100 * digVal b + 10 * digVal c + digVal d, r) := by
  unfold parseY4
  dsimp only
  rw [if_pos ⟨ha, hb, hc, hd⟩]

/-- Inversion of the `%m` parser: it consumed either two digits or one
digit. -/
lemma parseMonth2_eq_some {l r : List Char} {m : Nat}
    (h : parseMonth2 l = some (m, r)) :
    (∃ c1 c2 : Char, l = c1 :: c2 :: r ∧ isDigitC c1 = true ∧
        isDigitC c2 = true ∧ m = 10 * digVal c1 + digVal c2) ∨
      (∃ c1 : Char, l = c1 :: r ∧ isDigitC c1 = true ∧ 1 ≤ digVal c1 ∧
        m = digVal c1) := by
  rcases l with _ | ⟨c1, l⟩
  · exact Option.noConfusion h
  rcases l with _ | ⟨c2, rest⟩
  · unfold parseMonth2 at h
    dsimp only at h
    by_cases hc : isDigitC c1 = true ∧ 1 ≤ digVal c1
    · rw [if_pos hc] at h
      obtain ⟨hm, hr⟩ := some_pair_inj h
      exact Or.inr ⟨c1, by rw [hr], hc.1, hc.2, hm.symm⟩
    · rw [if_neg hc] at h
      exact Option.noConfusion h
  · unfold parseMonth2 at h
    dsimp only at h
    by_cases a1 : isDigitC c1 = true ∧ digVal c1 = 1 ∧ isDigitC c2 = true ∧
        digVal c2 ≤ 2
    · rw [if_pos a1] at h
      obtain ⟨hm, hr⟩ := some_pair_inj h
      refine Or.inl ⟨c1, c2, by rw [hr], a1.1, a1.2.2.1, ?_⟩
      have := a1.2.1
      omega
    · rw [if_neg a1] at h
      by_cases a2 : isDigitC c1 = true ∧ digVal c1 = 0 ∧ isDigitC c2 = true ∧
          1 ≤ digVal c2
      · rw [if_pos a2] at h
        obtain ⟨hm, hr⟩ := some_pair_inj h
        refine Or.inl ⟨c1, c2, by rw [hr], a2.1, a2.2.2.1, ?_⟩
        have := a2.2.1
        omega
      · rw [if_neg a2] at h
        by_cases a3 : isDigitC c1 = true ∧ 1 ≤ digVal c1
        · rw [if_pos a3] at h
          obtain ⟨hm, hr⟩ := some_pair_inj h
          exact Or.inr ⟨c1, by rw [hr], a3.1, a3.2, hm.symm⟩
        · rw [if_neg a3] at h
          exact Option.noConfusion h

/-- Inversion of the `%d` parser: it consumed two digits, one digit, or
a space-padded nonzero digit. -/
lemma parseDay2_eq_some {l r : List Char} {d : Nat}
    (h : parseDay2 l = some (d, r)) :
    (∃ c1 c2 : Char, l = c1 :: c2 :: r ∧ isDigitC c1 = true ∧
        isDigitC c2 = true ∧ d = 10 * digVal c1 + digVal c2) ∨
      (∃ c1 : Char, l = c1 :: r ∧ isDigitC c1 = true ∧ 1 ≤ digVal c1 ∧
        d = digVal c1) ∨
      (∃ c2 : Char, l = ' ' :: c2 :: r ∧ isDigitC c2 = true ∧
        1 ≤ digVal c2 ∧ d = digVal c2) := by
  rcases l with _ | ⟨c1, l⟩
  · exact Option.noConfusion h
  rcases l with _ | ⟨c2, rest⟩
  · unfold parseDay2 at h
    dsimp only at h
    by_cases hc : isDigitC c1 = true ∧ 1 ≤ digVal c1
    · rw [if_pos hc] at h
      obtain ⟨hm, hr⟩ := some_pair_inj h
      exact Or.inr (Or.inl ⟨c1, by rw [hr], hc.1, hc.2, hm.symm⟩)
    · rw [if_neg hc] at h
      exact Option.noConfusion h
  · unfold parseDay2 at h
    dsimp only at h
    by_cases a1 : isDigitC c1 = true ∧ digVal c1 = 3 ∧ isDigitC c2 = true ∧
        digVal c2 ≤ 1
    · rw [if_pos a1] at h
      obtain ⟨hm, hr⟩ := some_pair_inj h
      refine Or.inl ⟨c1, c2, by rw [hr], a1.1, a1.2.2.1, ?_⟩
      have := a1.2.1
      omega
    · rw [if_neg a1] at h
      by_cases a2 : isDigitC c1 = true ∧ (digVal c1 = 1 ∨ digVal c1 = 2) ∧
          isDigitC c2 = true
      · rw [if_pos a2] at h
        obtain ⟨hm, hr⟩ := some_pair_inj h
        exact Or.inl ⟨c1, c2, by rw [hr], a2.1, a2.2.2, hm.symm⟩
      · rw [if_neg a2] at h
        by_cases a3 : isDigitC c1 = true ∧ digVal c1 = 0 ∧ isDigitC c2 = true ∧
            1 ≤ digVal c2
        · rw [if_pos a3] at h
          obtain ⟨hm, hr⟩ := some_pair_inj h
          refine Or.inl ⟨c1, c2, by rw [hr], a3.1, a3.2.2.1, ?_⟩
          have := a3.2.1
          omega
        · rw [if_neg a3] at h
          by_cases a4 : isDigitC c1 = true ∧ 1 ≤ digVal c1
          · rw [if_pos a4] at h
            obtain ⟨hm, hr⟩ := some_pair_inj h
            exact Or.inr (Or.inl ⟨c1, by rw [hr], a4.1, a4.2, hm.symm⟩)
          · rw [if_neg a4] at h
            by_cases a5 : c1 = ' ' ∧ isDigitC c2 = true ∧ 1 ≤ digVal c2
            · rw [if_pos a5] at h
              obtain ⟨hm, hr⟩ := some_pair_inj h
              exact Or.inr (Or.inr
                ⟨c2, by rw [hr, a5.1], a5.2.1, a5.2.2, hm.symm⟩)
            · rw [if_neg a5] at h
              exact Option.noConfusion h

/-- Construction of the `%m` parser on a two-digit month in 1–12. -/
lemma parseMonth2_two {c1 c2 : Char} (r : List Char)
    (h1 : isDigitC c1 = true) (h2 : isDigitC c2 = true)
    (hlo : 1 ≤ 10 * digVal c1 + digVal c2)
    (hhi : 10 * digVal c1 + digVal c2 ≤ 12) :
    parseMonth2 (c1 :: c2 :: r) = some (10 * digVal c1 + digVal c2, r) := by
  have hv2 := digVal_le_nine h2
  have hv1 : digVal c1 ≤ 1 := by omega
  unfold parseMonth2
  dsimp only
  by_cases ha : digVal c1 = 1
  · rw [if_pos ⟨h1, ha, h2, by omega⟩]
    rw [show 10 + digVal c2 = 10 * digVal c1 + digVal c2 from by omega]
  · have ha0 : digVal c1 = 0 := by omega
    rw [if_neg (fun hc => ha hc.2.1), if_pos ⟨h1, ha0, h2, by omega⟩]
    rw [show 10 * digVal c1 + digVal c2 = digVal c2 from by omega]

/-- Construction of the `%m` parser on a one-digit month followed by a
non-digit (the `-` separator). -/
lemma parseMonth2_one {c1 x : Char} (r : List Char)
    (h1 : isDigitC c1 = true) (hlo : 1 ≤ digVal c1)
    (hx : isDigitC x = false) :
    parseMonth2 (c1 :: x :: r) = some (digVal c1, x :: r) := by
  unfold parseMonth2
  dsimp only
  rw [if_neg (fun hc => by rw [hc.2.2.1] at hx; exact Bool.noConfusion hx)]
  rw [if_neg (fun hc => by rw [hc.2.2.1] at hx; exact Bool.noConfusion hx)]
  rw [if_pos ⟨h1, hlo⟩]

/-- Construction of the `%d` parser on a two-digit day in 1–31 at the
end of the input. -/
lemma parseDay2_two {c1 c2 : Char}
    (h1 : isDigitC c1 = true) (h2 : isDigitC c2 = true)
    (hlo : 1 ≤ 10 * digVal c1 + digVal c2)
    (hhi : 10 * digVal c1 + digVal c2 ≤ 31) :
    parseDay2 [c1, c2] = some (10 * digVal c1 + digVal c2, []) := by
  have hv2 := digVal_le_nine h2
  have hv1 : digVal c1 ≤ 3 := by omega
  unfold parseDay2
  dsimp only
  by_cases ha : digVal c1 = 3
  · rw [if_pos ⟨h1, ha, h2, by omega⟩]
    rw [show 30 + digVal c2 = 10 * digVal c1 + digVal c2 from by omega]
  · by_cases hb : digVal c1 = 1 ∨ digVal c1 = 2
    · rw [if_neg (fun hc => ha hc.2.1), if_pos ⟨h1, hb, h2⟩]
    · have ha0 : digVal c1 = 0 := by omega
      rw [if_neg (fun hc => ha hc.2.1),
        if_neg (fun hc => hb hc.2.1),
        if_pos ⟨h1, ha0, h2, by omega⟩]
      rw [show 10 * digVal c1 + digVal c2 = digVal c2 from by omega]

/-- Construction of the `%d` parser on a one-digit day at the end of the
input. -/
lemma parseDay2_one {c1 : Char}
    (h1 : isDigitC c1 = true) (hlo : 1 ≤ digVal c1) :
    parseDay2 [c1] = some (digVal c1, []) := by
  unfold parseDay2
  dsimp only
  rw [if_pos ⟨h1, hlo⟩]

/-- Construction of the `%d` parser on a space-padded single nonzero
digit (the regex's final ` [1-9]` alternative) at the end of the
input. -/
lemma parseDay2_space {c : Char}
    (h2 : isDigitC c = true) (hlo : 1 ≤ digVal c) :
    parseDay2 [' ', c] = some (digVal c, []) := by
  have hsp : isDigitC ' ' = false := by decide
  unfold parseDay2
  dsimp only
  rw [if_neg (fun hc => by rw [hc.1] at hsp; exact Bool.noConfusion hsp),
    if_neg (fun hc => by rw [hc.1] at hsp; exact Bool.noConfusion hsp),
    if_neg (fun hc => by rw [hc.1] at hsp; exact Bool.noConfusion hsp),
    if_neg (fun hc => by rw [hc.1] at hsp; exact Bool.noConfusion hsp),
    if_pos ⟨rfl, h2, hlo⟩]

/-- The `strptime("%Y-%m-%d")` acceptance test accepts exactly the
flexible `Y-M-D` calendar-date shapes. -/
lemma strptime_flex (l : List Char) :
    strptimeDatetimeOk l = true ↔ FlexDate l := by
  constructor
  · intro h
    unfold strptimeDatetimeOk at h
    rcases hY : strptimeYmd l with _ | ⟨y, m, d⟩
    · rw [hY] at h
      exact Bool.noConfusion h
    rw [hY] at h
    unfold strptimeYmd at hY
    rcases h4 : parseY4 l with _ | ⟨y0, r0⟩
    · rw [h4] at hY; exact Option.noConfusion hY
    rw [h4] at hY; dsimp only at hY
    rcases hE1 : expectChar '-' r0 with _ | r1
    · rw [hE1] at hY; exact Option.noConfusion hY
    rw [hE1] at hY; dsimp only at hY
    rcases hM : parseMonth2 r1 with _ | ⟨m0, r2⟩
    · rw [hM] at hY; exact Option.noConfusion hY
    rw [hM] at hY; dsimp only at hY
    rcases hE2 : expectChar '-' r2 with _ | r3
    · rw [hE2] at hY; exact Option.noConfusion hY
    rw [hE2] at hY; dsimp only at hY
    rcases hD : parseDay2 r3 with _ | ⟨d0, r4⟩
    · rw [hD] at hY; exact Option.noConfusion hY
    rw [hD] at hY; dsimp only at hY
    by_cases h4e : r4 = []
    · rw [if_pos h4e] at hY
      cases Option.some.inj hY
      subst h4e
      obtain ⟨a, b, c, dd, hl4, da, db, dc0, ddg, hyv⟩ := parseY4_eq_some h4
      have hr0 : r0 = '-' :: r1 := expectChar_eq_some hE1
      have hr2 : r2 = '-' :: r3 := expectChar_eq_some hE2
      rcases parseMonth2_eq_some hM with
          ⟨m1, m2, hr1, e1, e2, hmv⟩ | ⟨m1, hr1, e1, _, hmv⟩ <;>
        rcases parseDay2_eq_some hD with
          ⟨g1, g2, hr3, f1, f2, hdv⟩ | ⟨g1, hr3, f1, _, hdv⟩ |
          ⟨g2, hr3, f2, flo, hdv⟩
      · refine ⟨[a, b, c, dd], [m1, m2], [g1, g2], digitsVal [g1, g2],
          ?_, by simp, by simp [da, db, dc0, ddg], by simp, by simp,
          by simp [e1, e2],
          Or.inl ⟨by simp, by simp, by simp [f1, f2], rfl⟩, ?_⟩
        · rw [hl4, hr0, hr1, hr2, hr3]; simp
        · rw [digitsVal_four, digitsVal_two, digitsVal_two,
            ← hyv, ← hmv, ← hdv]
          exact h
      · refine ⟨[a, b, c, dd], [m1, m2], [g1], digitsVal [g1],
          ?_, by simp, by simp [da, db, dc0, ddg], by simp, by simp,
          by simp [e1, e2],
          Or.inl ⟨by simp, by simp, by simp [f1], rfl⟩, ?_⟩
        · rw [hl4, hr0, hr1, hr2, hr3]; simp
        · rw [digitsVal_four, digitsVal_two, digitsVal_one,
            ← hyv, ← hmv, ← hdv]
          exact h
      · refine ⟨[a, b, c, dd], [m1, m2], [' ', g2], digVal g2,
          ?_, by simp, by simp [da, db, dc0, ddg], by simp, by simp,
          by simp [e1, e2],
          Or.inr ⟨g2, rfl, f2, flo, rfl⟩, ?_⟩
        · rw [hl4, hr0, hr1, hr2, hr3]; simp
        · rw [digitsVal_four, digitsVal_two, ← hyv, ← hmv, ← hdv]
          exact h
      · refine ⟨[a, b, c, dd], [m1], [g1, g2], digitsVal [g1, g2],
          ?_, by simp, by simp [da, db, dc0, ddg], by simp, by simp,
          by simp [e1],
          Or.inl ⟨by simp, by simp, by simp [f1, f2], rfl⟩, ?_⟩
        · rw [hl4, hr0, hr1, hr2, hr3]; simp
        · rw [digitsVal_four, digitsVal_one, digitsVal_two,
            ← hyv, ← hmv, ← hdv]
          exact h
      · refine ⟨[a, b, c, dd], [m1], [g1], digitsVal [g1],
          ?_, by simp, by simp [da, db, dc0, ddg], by simp, by simp,
          by simp [e1],
          Or.inl ⟨by simp, by simp, by simp [f1], rfl⟩, ?_⟩
        · rw [hl4, hr0, hr1, hr2, hr3]; simp
        · rw [digitsVal_four, digitsVal_one, digitsVal_one,
            ← hyv, ← hmv, ← hdv]
          exact h
      · refine ⟨[a, b, c, dd], [m1], [' ', g2], digVal g2,
          ?_, by simp, by simp [da, db, dc0, ddg], by simp, by simp,
          by simp [e1],
          Or.inr ⟨g2, rfl, f2, flo, rfl⟩, ?_⟩
        · rw [hl4, hr0, hr1, hr2, hr3]; simp
        · rw [digitsVal_four, digitsVal_one, ← hyv, ← hmv, ← hdv]
          exact h
    · rw [if_neg h4e] at hY
      exact Option.noConfusion hY
  · rintro ⟨yc, mc, dc, d, hsh, hylen, hydig, hm1, hm2, hmdig, hday, hok⟩
    have hok' := hok
    unfold datetimeOk at hok'
    simp only [Bool.and_eq_true, decide_eq_true_eq] at hok'
    obtain ⟨⟨⟨⟨⟨hy1, hy2⟩, hmlo⟩, hmhi⟩, hdlo⟩, hdhi⟩ := hok'
    have hdle : d ≤ 31 :=
      le_trans hdhi (daysInMonth_le31 _ _)
    rcases yc with _ | ⟨a, yc⟩
    · simp at hylen
    rcases yc with _ | ⟨b, yc⟩
    · simp at hylen
    rcases yc with _ | ⟨c, yc⟩
    · simp at hylen
    rcases yc with _ | ⟨dd, yc⟩
    · simp at hylen
    rcases yc with _ | ⟨e, yc⟩
    swap
    · simp at hylen
    simp only [List.all_cons, List.all_nil, Bool.and_eq_true, and_true] at hydig
    obtain ⟨da, db, dc0, ddg⟩ := hydig
    subst hsh
    unfold strptimeDatetimeOk strptimeYmd
    rw [show ([a, b, c, dd] ++ '-' :: (mc ++ '-' :: dc) : List Char)
        = a :: b :: c :: dd :: ('-' :: (mc ++ '-' :: dc)) from rfl]
    rw [parseY4_app _ da db dc0 ddg]
    dsimp only
    rw [expectChar_cons]
    dsimp only
    rcases mc with _ | ⟨m1, mc⟩
    · simp at hm1
    rcases mc with _ | ⟨m2, mc⟩
    · -- one-digit month
      simp only [List.all_cons, List.all_nil, Bool.and_eq_true, and_true] at hmdig
      rw [digitsVal_one] at hmlo hmhi hok
      rw [show ([m1] ++ '-' :: dc : List Char) = m1 :: '-' :: dc from rfl]
      rw [parseMonth2_one _ hmdig hmlo (by decide)]
      dsimp only
      rw [expectChar_cons]
      dsimp only
      rcases hday with ⟨hd1, hd2, hddig, hdeq⟩ | ⟨cq, hdc, hcdig, hclo, hdeq⟩
      · subst hdeq
        rcases dc with _ | ⟨g1, dc⟩
        · simp at hd1
        rcases dc with _ | ⟨g2, dc⟩
        · simp only [List.all_cons, List.all_nil, Bool.and_eq_true,
            and_true] at hddig
          rw [digitsVal_one] at hdlo hdle hok
          rw [parseDay2_one hddig hdlo]
          dsimp only
          rw [if_pos rfl]
          dsimp only
          rw [digitsVal_four] at hok
          exact hok
        · rcases dc with _ | ⟨g3, dc⟩
          swap
          · simp at hd2
          simp only [List.all_cons, List.all_nil, Bool.and_eq_true,
            and_true] at hddig
          rw [digitsVal_two] at hdlo hdle hok
          rw [parseDay2_two hddig.1 hddig.2 hdlo hdle]
          dsimp only
          rw [if_pos rfl]
          dsimp only
          rw [digitsVal_four] at hok
          exact hok
      · subst hdc
        subst hdeq
        rw [parseDay2_space hcdig hclo]
        dsimp only
        rw [if_pos rfl]
        dsimp only
        rw [digitsVal_four] at hok
        exact hok
    · rcases mc with _ | ⟨m3, mc⟩
      swap
      · simp at hm2
      -- two-digit month
      simp only [List.all_cons, List.all_nil, Bool.and_eq_true, and_true] at hmdig
      rw [digitsVal_two] at hmlo hmhi hok
      rw [show ([m1, m2] ++ '-' :: dc : List Char)
          = m1 :: m2 :: ('-' :: dc) from rfl]
      rw [parseMonth2_two _ hmdig.1 hmdig.2 hmlo hmhi]
      dsimp only
      rw [expectChar_cons]
      dsimp only
      rcases hday with ⟨hd1, hd2, hddig, hdeq⟩ | ⟨cq, hdc, hcdig, hclo, hdeq⟩
      · subst hdeq
        rcases dc with _ | ⟨g1, dc⟩
        · simp at hd1
        rcases dc with _ | ⟨g2, dc⟩
        · simp only [List.all_cons, List.all_nil, Bool.and_eq_true,
            and_true] at hddig
          rw [digitsVal_one] at hdlo hdle hok
          rw [parseDay2_one hddig hdlo]
          dsimp only
          rw [if_pos rfl]
          dsimp only
          rw [digitsVal_four] at hok
          exact hok
        · rcases dc with _ | ⟨g3, dc⟩
          swap
          · simp at hd2
          simp only [List.all_cons, List.all_nil, Bool.and_eq_true,
            and_true] at hddig
          rw [digitsVal_two] at hdlo hdle hok
          rw [parseDay2_two hddig.1 hddig.2 hdlo hdle]
          dsimp only
          rw [if_pos rfl]
          dsimp only
          rw [digitsVal_four] at hok
          exact hok
      · subst hdc
        subst hdeq
        rw [parseDay2_space hcdig hclo]
        dsimp only
        rw [if_pos rfl]
        dsimp only
        rw [digitsVal_four] at hok
        exact hok

/-- C8: the claim says nonempty input is accepted exactly when it is an
exact ten-character `YYYY-MM-DD` calendar date.  `strptime`'s `%m` and
`%d` patterns also accept one-digit fields: `2025-2-3` is accepted by
`validate_date` although it is not of the exact `YYYY-MM-DD` shape. -/
theorem C8_date_shape_counterexample :
    validate_date "2025-2-3" = true ∧
      exactYYYYMMDD "2025-2-3" = false ∧
      pyStrip "2025-2-3" ≠ "" := by
  exact ⟨by decide, by decide, by decide⟩

/-- C8 (amended): `validate_date` accepts the empty (whitespace-only)
string, and otherwise accepts exactly the flexible calendar-date shapes:
a four-digit year, a one-or-two-digit month, and a day that is one or
two digits or a space-padded single nonzero digit (the `%d` regex's
final ` [1-9]` alternative), separated by single hyphens, naming a real
calendar date in years 1–9999 with no overflow — in particular
`2025-02-30` and month 13 are rejected, while one-digit month/day forms
such as `2025-2-3` and the space-padded day `2025-01- 5` are accepted
in addition to the strict two-digit shape; the month pattern has no
space-padded alternative, so `2025- 1-01` is rejected. -/
theorem C8_validate_date_amended :
    (∀ s : String, validate_date s = true ↔
        (pyStrip s = "" ∨ FlexDate (pyStrip s).data)) ∧
      validate_date "" = true ∧
      validate_date "2025-02-30" = false ∧
      validate_date "2025-13-01" = false ∧
      validate_date "2025-02-28" = true ∧
      validate_date "0000-01-01" = false ∧
      validate_date "2025-01- 5" = true ∧
      validate_date "2025- 1-01" = false := by
  refine ⟨?_, by decide, by decide, by decide, by decide, by decide,
    by decide, by decide⟩
  intro s
  unfold validate_date
  by_cases hs : pyStrip s = ""
  · rw [if_pos hs]
    simp [hs]
  · rw [if_neg hs]
    rw [strptime_flex]
    exact (or_iff_right hs).symm
